import Mathlib

/-!
Verification of the 2048 core (src/helpers.py).

The grid is a `List (List Nat)` (4 rows of 4 cells in the game).  The
Python functions mutate the table in place; here each operation returns
the new table together with its original return value.

The scan loops of `_horizontal_sum`, `_vertical_sum`, `_horizontal_move`
and `_vertical_move` touch a single line (a row for the horizontal
functions, a column for the vertical ones) at a time, so each is embedded
as a per-line scanner mapped over the rows, respectively the columns
(obtained by `column` / rebuilt by `fromCols`), of the table.
-/

namespace Game2048

/-- Python's `range(start, stop, step)` for a nonzero step. -/
def pyRange (start stop step : Int) : List Int :=
  if 1 ≤ step then
    (List.range (((stop - start) + (step - 1)) / step).toNat).map
      (fun i => start + step * i)
  else if step ≤ -1 then
    (List.range (((start - stop) + (-step - 1)) / (-step)).toNat).map
      (fun i => start + step * i)
  else []

/-- The `(idx_start, idx_end, iteration_factor)` triple that
`_horizontal_sum`, `_vertical_sum`, `_horizontal_move` and
`_vertical_move` all compute from their direction argument:
`(0, 3, 1)` for `"a"`/`"w"` and `(3, 0, -1)` for `"d"`/`"s"`. -/
structure ScanParams where
  idx_start : Int
  idx_end : Int
  iteration_factor : Int
deriving DecidableEq, Repr

/-- `if direction == "a": (0, 3, 1) else: (3, 0, -1)` (the horizontal
functions; the vertical ones test `"w"` instead of `"a"`). -/
def lowParams : ScanParams := ⟨0, 3, 1⟩

/-- The `(3, 0, -1)` triple used for directions `"d"` and `"s"`. -/
def highParams : ScanParams := ⟨3, 0, -1⟩

/-- The pivot scan `range(idx_start, idx_end, iteration_factor)`. -/
def idxScan (p : ScanParams) : List Int :=
  pyRange p.idx_start p.idx_end p.iteration_factor

/-- The cursor scan
`range(idx + iteration_factor, idx_end + iteration_factor, iteration_factor)`. -/
def cursorScan (p : ScanParams) (idx : Int) : List Int :=
  pyRange (idx + p.iteration_factor) (p.idx_end + p.iteration_factor)
    p.iteration_factor

/-- Cell read `table[row][col]` (total, defaulting to 0 out of range). -/
def getCell (t : List (List Nat)) (r c : Nat) : Nat :=
  (t.getD r []).getD c 0

/-- Cell write `table[row][col] = v`. -/
def setCell (t : List (List Nat)) (r c : Nat) (v : Nat) : List (List Nat) :=
  t.set r ((t.getD r []).set c v)

/-- `new_table`: the 4x4 table of zeros. -/
def new_table : List (List Nat) :=
  [[0, 0, 0, 0],
   [0, 0, 0, 0],
   [0, 0, 0, 0],
   [0, 0, 0, 0]]

/-- `_get_empty_indexes`: the `(row, col)` pairs, in row-major order of
the two `range(4)` loops, whose cell is 0. -/
def get_empty_indexes (t : List (List Nat)) : List (Nat × Nat) :=
  (List.range 4).flatMap fun row_idx =>
    (List.range 4).filterMap fun col_idx =>
      if getCell t row_idx col_idx = 0 then some (row_idx, col_idx) else none

/-- `insert_block`: picks an empty cell and writes 2 or 4 into it.  The
two `rand.choice` calls are modelled by the extra parameters: `pick`
selects the element of `indexes` (any natural, reduced mod the length,
so every choice the source can make is covered) and `val` is the chosen
block value (theorems assume `val = 2 ∨ val = 4`, mirroring
`rand.choice([2, 4])`). -/
def insert_block (t : List (List Nat)) (pick val : Nat) : List (List Nat) :=
  let indexes := get_empty_indexes t
  if indexes = [] then t
  else
    let rc := indexes.getD (pick % indexes.length) (0, 0)
    setCell t rc.1 rc.2 val

/-- Inner helper `can_move_horizontally` of `can_move`. -/
def can_move_horizontally (t : List (List Nat)) : Bool :=
  (List.range 4).any fun row =>
    (List.range 3).any fun col =>
      getCell t row col == getCell t row (col + 1)

/-- Inner helper `can_move_vertically` of `can_move`. -/
def can_move_vertically (t : List (List Nat)) : Bool :=
  (List.range 4).any fun col =>
    (List.range 3).any fun row =>
      getCell t row col == getCell t (row + 1) col

/-- `can_move`: true when an empty cell exists or two equal cells are
adjacent in a row or in a column. -/
def can_move (t : List (List Nat)) : Bool :=
  if get_empty_indexes t ≠ [] then true
  else can_move_horizontally t || can_move_vertically t

/-- `has_won`: true when a 2048 block exists. -/
def has_won (t : List (List Nat)) : Bool :=
  t.any fun row => row.any fun block => block == 2048

/-- The cursor loop of `_horizontal_sum` / `_vertical_sum` on one line:
`last` is the pivot value read before the loop, `idx` the pivot
position.  A zero cursor cell is skipped; a cursor cell equal to `last`
doubles the pivot, zeroes the cursor cell, yields the doubled pivot as
the score contribution and stops; any other non-zero cell stops. -/
def sumCursor (line : List Nat) (idx : Nat) (last : Nat) :
    List Int → List Nat × Nat
  | [] => (line, 0)
  | cursor :: rest =>
    let current := line.getD cursor.toNat 0
    if current = 0 then sumCursor line idx last rest
    else if current = last then
      let line' := line.set idx (line.getD idx 0 * 2)
      (line'.set cursor.toNat 0, line'.getD idx 0)
    else (line, 0)

/-- The pivot loop of `_horizontal_sum` / `_vertical_sum` on one line,
accumulating the score over the given pivot positions. -/
def sumIdx (p : ScanParams) (line : List Nat) : List Int → List Nat × Nat
  | [] => (line, 0)
  | idx :: rest =>
    let last := line.getD idx.toNat 0
    let r1 := sumCursor line idx.toNat last (cursorScan p idx)
    let r2 := sumIdx p r1.1 rest
    (r2.1, r1.2 + r2.2)

/-- The merge pass on one line. -/
def sumLine (p : ScanParams) (line : List Nat) : List Nat × Nat :=
  sumIdx p line (idxScan p)

/-- The cursor loop of `_horizontal_move` / `_vertical_move`: find the
first non-zero cell among the cursor positions and swap it with the
(zero) pivot cell. -/
def moveCursor (line : List Nat) (idx : Nat) : List Int → List Nat × Bool
  | [] => (line, false)
  | cursor :: rest =>
    if line.getD cursor.toNat 0 ≠ 0 then
      let temp := line.getD idx 0
      ((line.set idx (line.getD cursor.toNat 0)).set cursor.toNat temp, true)
    else moveCursor line idx rest

/-- The pivot loop of `_horizontal_move` / `_vertical_move` on one line:
non-zero pivots are skipped (`continue`); the movement flag is the OR
over all performed swaps. -/
def moveIdx (p : ScanParams) (line : List Nat) : List Int → List Nat × Bool
  | [] => (line, false)
  | idx :: rest =>
    let pivot := line.getD idx.toNat 0
    if pivot ≠ 0 then moveIdx p line rest
    else
      let r1 := moveCursor line idx.toNat (cursorScan p idx)
      let r2 := moveIdx p r1.1 rest
      (r2.1, r1.2 || r2.2)

/-- The compaction pass on one line. -/
def moveLine (p : ScanParams) (line : List Nat) : List Nat × Bool :=
  moveIdx p line (idxScan p)

/-- `_horizontal_sum`: the merge pass applied to every row
(`for row in range(4)` with the inner loops only touching
`table[row]`); the returned score is the total over the rows. -/
def horizontal_sum (t : List (List Nat)) (direction : String) :
    List (List Nat) × Nat :=
  let p := if direction = "a" then lowParams else highParams
  ((t.map fun row => (sumLine p row).1),
   (t.map fun row => (sumLine p row).2).sum)

/-- One column of a table, as a list (top to bottom):
`[t[0][c], t[1][c], t[2][c], t[3][c]]` for a 4-row table. -/
def column (t : List (List Nat)) (c : Nat) : List Nat :=
  t.map fun row => row.getD c 0

/-- Rebuild a 4x4 table from its list of 4 columns (row `r` collects the
`r`-th entry of every column). -/
def fromCols (cols : List (List Nat)) : List (List Nat) :=
  (List.range 4).map fun r => cols.map fun col => col.getD r 0

/-- `_vertical_sum`: the merge pass applied to every column
(`for col in range(4)` with the inner loops only touching
`table[·][col]`), embedded by extracting the columns, scanning each and
rebuilding the table. -/
def vertical_sum (t : List (List Nat)) (direction : String) :
    List (List Nat) × Nat :=
  let p := if direction = "w" then lowParams else highParams
  let cols := (List.range 4).map fun c => column t c
  (fromCols (cols.map fun col => (sumLine p col).1),
   (cols.map fun col => (sumLine p col).2).sum)

/-- `_horizontal_move`: the compaction pass applied to every row; the
returned flag is true when any row reported a swap. -/
def horizontal_move (t : List (List Nat)) (direction : String) :
    List (List Nat) × Bool :=
  let p := if direction = "a" then lowParams else highParams
  ((t.map fun row => (moveLine p row).1),
   (t.map fun row => (moveLine p row).2).any id)

/-- `_vertical_move`: the compaction pass applied to every column,
embedded by extracting the columns, scanning each and rebuilding the
table. -/
def vertical_move (t : List (List Nat)) (direction : String) :
    List (List Nat) × Bool :=
  let p := if direction = "w" then lowParams else highParams
  let cols := (List.range 4).map fun c => column t c
  (fromCols (cols.map fun col => (moveLine p col).1),
   (cols.map fun col => (moveLine p col).2).any id)

/-- `push_blocks`: merge pass then compaction pass for the requested
direction; returns the updated table, the merge score and the movement
flag.  The `assert direction in ("W", "A", "S", "D")` is modelled by
returning `none` for any other string. -/
def push_blocks (t : List (List Nat)) (direction : String) :
    Option (List (List Nat) × Nat × Bool) :=
  match direction with
  | "A" =>
    let s := horizontal_sum t "a"
    let m := horizontal_move s.1 "a"
    some (m.1, s.2, m.2)
  | "D" =>
    let s := horizontal_sum t "d"
    let m := horizontal_move s.1 "d"
    some (m.1, s.2, m.2)
  | "W" =>
    let s := vertical_sum t "w"
    let m := vertical_move s.1 "w"
    some (m.1, s.2, m.2)
  | "S" =>
    let s := vertical_sum t "s"
    let m := vertical_move s.1 "s"
    some (m.1, s.2, m.2)
  | _ => none

/-- The merge phase of `push_blocks` for a direction key: the call to
`horizontal_sum` / `vertical_sum` that `push_blocks` makes for that key
(identity on other strings). -/
def merge_pass (t : List (List Nat)) : String → List (List Nat) × Nat
  | "A" => horizontal_sum t "a"
  | "D" => horizontal_sum t "d"
  | "W" => vertical_sum t "w"
  | "S" => vertical_sum t "s"
  | _ => (t, 0)

/-- The compaction phase of `push_blocks` for a direction key: the call
to `horizontal_move` / `vertical_move` that `push_blocks` makes for that
key (identity on other strings). -/
def move_pass (t : List (List Nat)) : String → List (List Nat) × Bool
  | "A" => horizontal_move t "a"
  | "D" => horizontal_move t "d"
  | "W" => vertical_move t "w"
  | "S" => vertical_move t "s"
  | _ => (t, false)

end Game2048

/-!
Specification-side definitions: the measures and predicates the claims
speak about.
-/

namespace Game2048

/-- Total of all cell values of a table. -/
def totalSum (t : List (List Nat)) : Nat :=
  (t.map List.sum).sum

/-- Sum, over the cells that strictly increased between `t` and `u`, of
the new cell value: for the merge pass this totals the newly created
merged tiles (each merge of two tiles `v` leaves one increased cell
holding `2v`). -/
def gainedCells (t u : List (List Nat)) : Nat :=
  ((List.range 4).map fun r =>
    ((List.range 4).map fun c =>
      if getCell t r c < getCell u r c then getCell u r c else 0).sum).sum

/-- The spec's description of compaction toward index 0 ("packs the
non-zero values contiguously against the push-direction edge, in their
original relative order, with zeros filling the remaining cells"). -/
def packTo0 (line : List Nat) : List Nat :=
  line.filter (fun v => v ≠ 0)
    ++ List.replicate (line.length - (line.filter (fun v => v ≠ 0)).length) 0

/-- The spec's description of compaction toward the far edge (index 3). -/
def packTo3 (line : List Nat) : List Nat :=
  List.replicate (line.length - (line.filter (fun v => v ≠ 0)).length) 0
    ++ line.filter (fun v => v ≠ 0)

/-- The grid invariant on one cell: 0 or a power of 2 that is ≥ 2. -/
def validCell (v : Nat) : Prop :=
  v = 0 ∨ (2 ≤ v ∧ ∃ k, v = 2 ^ k)

/-- The grid invariant: exactly 4 rows of 4 cells, every cell 0 or a
power of 2 that is ≥ 2. -/
def validGrid (t : List (List Nat)) : Prop :=
  t.length = 4 ∧ (∀ row ∈ t, row.length = 4)
    ∧ ∀ row ∈ t, ∀ v ∈ row, validCell v

end Game2048

/-! Basic evaluation lemmas for the embedding. -/

namespace Game2048

set_option maxRecDepth 8192

lemma idxScan_low : idxScan lowParams = [0, 1, 2] := by decide

lemma idxScan_high : idxScan highParams = [3, 2, 1] := by decide

lemma cursorScan_low_0 : cursorScan lowParams 0 = [1, 2, 3] := by decide

lemma cursorScan_low_1 : cursorScan lowParams 1 = [2, 3] := by decide

lemma cursorScan_low_2 : cursorScan lowParams 2 = [3] := by decide

lemma cursorScan_high_3 : cursorScan highParams 3 = [2, 1, 0] := by decide

lemma cursorScan_high_2 : cursorScan highParams 2 = [1, 0] := by decide

lemma cursorScan_high_1 : cursorScan highParams 1 = [0] := by decide

lemma toNat_0 : (0 : Int).toNat = 0 := rfl

lemma toNat_1 : (1 : Int).toNat = 1 := rfl

lemma toNat_2 : (2 : Int).toNat = 2 := rfl

lemma toNat_3 : (3 : Int).toNat = 3 := rfl

lemma getD_0 (x : Nat) (l : List Nat) : (x :: l).getD 0 0 = x := rfl

lemma getD_1 (x y : Nat) (l : List Nat) : (x :: y :: l).getD 1 0 = y := rfl

lemma getD_2 (x y z : Nat) (l : List Nat) : (x :: y :: z :: l).getD 2 0 = z := rfl

lemma getD_3 (x y z w : Nat) (l : List Nat) :
    (x :: y :: z :: w :: l).getD 3 0 = w := rfl

lemma set_0 (x v : Nat) (l : List Nat) : (x :: l).set 0 v = v :: l := rfl

lemma set_1 (x y v : Nat) (l : List Nat) : (x :: y :: l).set 1 v = x :: v :: l := rfl

lemma set_2 (x y z v : Nat) (l : List Nat) :
    (x :: y :: z :: l).set 2 v = x :: y :: v :: l := rfl

lemma set_3 (x y z w v : Nat) (l : List Nat) :
    (x :: y :: z :: w :: l).set 3 v = x :: y :: z :: v :: l := rfl

/-- Any list of length 4 is a literal 4-element list. -/
lemma list4 {l : List Nat} (h : l.length = 4) :
    ∃ w x y z, l = [w, x, y, z] := by
  match l, h with
  | [w, x, y, z], _ => exact ⟨w, x, y, z, rfl⟩

lemma fromCols4 (a b c d e f g h i j k l m n o p : Nat) :
    fromCols [[a, e, i, m], [b, f, j, n], [c, g, k, o], [d, h, l, p]]
      = [[a, b, c, d], [e, f, g, h], [i, j, k, l], [m, n, o, p]] := rfl

lemma column4 (a b c d e f g h i j k l m n o p : Nat) :
    (List.range 4).map
        (fun cc => column [[a, b, c, d], [e, f, g, h], [i, j, k, l], [m, n, o, p]] cc)
      = [[a, e, i, m], [b, f, j, n], [c, g, k, o], [d, h, l, p]] := rfl

end Game2048

/-! Per-pivot characterizations of the merge-pass cursor loop. -/

namespace Game2048

set_option maxRecDepth 8192

/-- Cursor loop at pivot 0 (scan toward index 0), cursors `[1,2,3]`. -/
lemma sumCursor_low_0 (a b c d : Nat) :
    ∃ w x y z s, sumCursor [a, b, c, d] 0 a [1, 2, 3] = ([w, x, y, z], s)
      ∧ w + x + y + z = a + b + c + d
      ∧ (x = b ∨ x = 0) ∧ (y = c ∨ y = 0) ∧ (z = d ∨ z = 0)
      ∧ ((w = a ∧ s = 0) ∨ (w = 2 * a ∧ a ≠ 0 ∧ s = w))
      ∧ (s = 0 → w = a ∧ x = b ∧ y = c ∧ z = d) := by
  simp only [sumCursor, toNat_0, toNat_1, toNat_2, toNat_3,
    getD_0, getD_1, getD_2, getD_3, set_0, set_1, set_2, set_3]
  split_ifs <;> refine ⟨_, _, _, _, _, rfl, ?_, ?_, ?_, ?_, ?_, ?_⟩ <;> omega

/-- Cursor loop at pivot 1 (scan toward index 0), cursors `[2,3]`. -/
lemma sumCursor_low_1 (w x y z : Nat) :
    ∃ x2 y2 z2 s, sumCursor [w, x, y, z] 1 x [2, 3] = ([w, x2, y2, z2], s)
      ∧ x2 + y2 + z2 = x + y + z
      ∧ (y2 = y ∨ y2 = 0) ∧ (z2 = z ∨ z2 = 0)
      ∧ ((x2 = x ∧ s = 0) ∨ (x2 = 2 * x ∧ x ≠ 0 ∧ s = x2))
      ∧ (s = 0 → x2 = x ∧ y2 = y ∧ z2 = z) := by
  simp only [sumCursor, toNat_0, toNat_1, toNat_2, toNat_3,
    getD_0, getD_1, getD_2, getD_3, set_0, set_1, set_2, set_3]
  split_ifs <;> refine ⟨_, _, _, _, rfl, ?_, ?_, ?_, ?_, ?_⟩ <;> omega

/-- Cursor loop at pivot 2 (scan toward index 0), cursors `[3]`. -/
lemma sumCursor_low_2 (w x y z : Nat) :
    ∃ y2 z2 s, sumCursor [w, x, y, z] 2 y [3] = ([w, x, y2, z2], s)
      ∧ y2 + z2 = y + z
      ∧ (z2 = z ∨ z2 = 0)
      ∧ ((y2 = y ∧ s = 0) ∨ (y2 = 2 * y ∧ y ≠ 0 ∧ s = y2))
      ∧ (s = 0 → y2 = y ∧ z2 = z) := by
  simp only [sumCursor, toNat_0, toNat_1, toNat_2, toNat_3,
    getD_0, getD_1, getD_2, getD_3, set_0, set_1, set_2, set_3]
  split_ifs <;> refine ⟨_, _, _, rfl, ?_, ?_, ?_, ?_⟩ <;> omega

/-- Cursor loop at pivot 3 (scan toward index 3), cursors `[2,1,0]`. -/
lemma sumCursor_high_3 (a b c d : Nat) :
    ∃ w x y z s, sumCursor [a, b, c, d] 3 d [2, 1, 0] = ([w, x, y, z], s)
      ∧ w + x + y + z = a + b + c + d
      ∧ (w = a ∨ w = 0) ∧ (x = b ∨ x = 0) ∧ (y = c ∨ y = 0)
      ∧ ((z = d ∧ s = 0) ∨ (z = 2 * d ∧ d ≠ 0 ∧ s = z))
      ∧ (s = 0 → w = a ∧ x = b ∧ y = c ∧ z = d) := by
  simp only [sumCursor, toNat_0, toNat_1, toNat_2, toNat_3,
    getD_0, getD_1, getD_2, getD_3, set_0, set_1, set_2, set_3]
  split_ifs <;> refine ⟨_, _, _, _, _, rfl, ?_, ?_, ?_, ?_, ?_, ?_⟩ <;> omega

/-- Cursor loop at pivot 2 (scan toward index 3), cursors `[1,0]`. -/
lemma sumCursor_high_2 (w x y z : Nat) :
    ∃ w2 x2 y2 s, sumCursor [w, x, y, z] 2 y [1, 0] = ([w2, x2, y2, z], s)
      ∧ w2 + x2 + y2 = w + x + y
      ∧ (w2 = w ∨ w2 = 0) ∧ (x2 = x ∨ x2 = 0)
      ∧ ((y2 = y ∧ s = 0) ∨ (y2 = 2 * y ∧ y ≠ 0 ∧ s = y2))
      ∧ (s = 0 → w2 = w ∧ x2 = x ∧ y2 = y) := by
  simp only [sumCursor, toNat_0, toNat_1, toNat_2, toNat_3,
    getD_0, getD_1, getD_2, getD_3, set_0, set_1, set_2, set_3]
  split_ifs <;> refine ⟨_, _, _, _, rfl, ?_, ?_, ?_, ?_, ?_⟩ <;> omega

/-- Cursor loop at pivot 1 (scan toward index 3), cursors `[0]`. -/
lemma sumCursor_high_1 (w x y z : Nat) :
    ∃ w2 x2 s, sumCursor [w, x, y, z] 1 x [0] = ([w2, x2, y, z], s)
      ∧ w2 + x2 = w + x
      ∧ (w2 = w ∨ w2 = 0)
      ∧ ((x2 = x ∧ s = 0) ∨ (x2 = 2 * x ∧ x ≠ 0 ∧ s = x2))
      ∧ (s = 0 → w2 = w ∧ x2 = x) := by
  simp only [sumCursor, toNat_0, toNat_1, toNat_2, toNat_3,
    getD_0, getD_1, getD_2, getD_3, set_0, set_1, set_2, set_3]
  split_ifs <;> refine ⟨_, _, _, rfl, ?_, ?_, ?_, ?_⟩ <;> omega

/-- `sumLine` toward index 0 unfolds to the three cursor loops in
sequence. -/
lemma sumLine_low_decomp (a b c d : Nat) :
    sumLine lowParams [a, b, c, d] =
      (let r1 := sumCursor [a, b, c, d] 0 a [1, 2, 3]
       let r2 := sumCursor r1.1 1 (r1.1.getD 1 0) [2, 3]
       let r3 := sumCursor r2.1 2 (r2.1.getD 2 0) [3]
       (r3.1, r1.2 + (r2.2 + (r3.2 + 0)))) := rfl

/-- `sumLine` toward index 3 unfolds to the three cursor loops in
sequence. -/
lemma sumLine_high_decomp (a b c d : Nat) :
    sumLine highParams [a, b, c, d] =
      (let r1 := sumCursor [a, b, c, d] 3 d [2, 1, 0]
       let r2 := sumCursor r1.1 2 (r1.1.getD 2 0) [1, 0]
       let r3 := sumCursor r2.1 1 (r2.1.getD 1 0) [0]
       (r3.1, r1.2 + (r2.2 + (r3.2 + 0)))) := rfl

end Game2048

/-! Arithmetic helpers for composing the per-pivot facts. -/

namespace Game2048

set_option maxRecDepth 8192

lemma stepIf {v w s : Nat} (h : (w = v ∧ s = 0) ∨ (w = 2 * v ∧ v ≠ 0 ∧ s = w)) :
    (if v < w then w else 0) = s := by
  split_ifs <;> omega

lemma stepIf2 {b x1 x2 s : Nat} (h1 : x1 = b ∨ x1 = 0)
    (h2 : (x2 = x1 ∧ s = 0) ∨ (x2 = 2 * x1 ∧ x1 ≠ 0 ∧ s = x2)) :
    (if b < x2 then x2 else 0) = s := by
  split_ifs <;> omega

lemma stepIf3 {c y1 y2 y3 s : Nat} (h1 : y1 = c ∨ y1 = 0) (h2 : y2 = y1 ∨ y2 = 0)
    (h3 : (y3 = y2 ∧ s = 0) ∨ (y3 = 2 * y2 ∧ y2 ≠ 0 ∧ s = y3)) :
    (if c < y3 then y3 else 0) = s := by
  split_ifs <;> omega

lemma stepIf0 {d z1 z2 z3 : Nat} (h1 : z1 = d ∨ z1 = 0) (h2 : z2 = z1 ∨ z2 = 0)
    (h3 : z3 = z2 ∨ z3 = 0) : (if d < z3 then z3 else 0) = 0 := by
  split_ifs <;> omega

lemma cellA {v w s : Nat} (h : (w = v ∧ s = 0) ∨ (w = 2 * v ∧ v ≠ 0 ∧ s = w)) :
    w = 0 ∨ w = v ∨ w = 2 * v := by omega

lemma cellB {b x1 x2 s : Nat} (h1 : x1 = b ∨ x1 = 0)
    (h2 : (x2 = x1 ∧ s = 0) ∨ (x2 = 2 * x1 ∧ x1 ≠ 0 ∧ s = x2)) :
    x2 = 0 ∨ x2 = b ∨ x2 = 2 * b := by omega

lemma cellC {c y1 y2 y3 s : Nat} (h1 : y1 = c ∨ y1 = 0) (h2 : y2 = y1 ∨ y2 = 0)
    (h3 : (y3 = y2 ∧ s = 0) ∨ (y3 = 2 * y2 ∧ y2 ≠ 0 ∧ s = y3)) :
    y3 = 0 ∨ y3 = c ∨ y3 = 2 * c := by omega

lemma cellD {d z1 z2 z3 : Nat} (h1 : z1 = d ∨ z1 = 0) (h2 : z2 = z1 ∨ z2 = 0)
    (h3 : z3 = z2 ∨ z3 = 0) : z3 = 0 ∨ z3 = d ∨ z3 = 2 * d := by omega

/-- Full characterization of the merge pass toward index 0 on one line:
the resulting cells, conservation of the line total, the score as the
total of the strictly increased cells, each cell 0 / unchanged /
doubled, and the returned line when the score is 0. -/
lemma sumLine_spec_low (a b c d : Nat) :
    ∃ w x y z, (sumLine lowParams [a, b, c, d]).1 = [w, x, y, z]
      ∧ w + x + y + z = a + b + c + d
      ∧ (sumLine lowParams [a, b, c, d]).2
          = (if a < w then w else 0) + (if b < x then x else 0)
            + (if c < y then y else 0) + (if d < z then z else 0)
      ∧ (w = 0 ∨ w = a ∨ w = 2 * a) ∧ (x = 0 ∨ x = b ∨ x = 2 * b)
      ∧ (y = 0 ∨ y = c ∨ y = 2 * c) ∧ (z = 0 ∨ z = d ∨ z = 2 * d)
      ∧ ((sumLine lowParams [a, b, c, d]).2 = 0 → [w, x, y, z] = [a, b, c, d]) := by
  rw [sumLine_low_decomp]
  obtain ⟨w1, x1, y1, z1, s1, h1, hsum1, hx1, hy1, hz1, hws1, hz01⟩ :=
    sumCursor_low_0 a b c d
  simp only [h1, getD_0, getD_1, getD_2, getD_3]
  obtain ⟨x2, y2, z2, s2, h2, hsum2, hy2, hz2, hxs2, hz02⟩ :=
    sumCursor_low_1 w1 x1 y1 z1
  simp only [h2, getD_0, getD_1, getD_2, getD_3]
  obtain ⟨y3, z3, s3, h3, hsum3, hz3, hys3, hz03⟩ := sumCursor_low_2 w1 x2 y2 z2
  simp only [h3]
  have e1 := stepIf hws1
  have e2 := stepIf2 hx1 hxs2
  have e3 := stepIf3 hy1 hy2 hys3
  have e4 := stepIf0 hz1 hz2 hz3
  have c1 := cellA hws1
  have c2 := cellB hx1 hxs2
  have c3 := cellC hy1 hy2 hys3
  have c4 := cellD hz1 hz2 hz3
  have hzero : s1 + (s2 + (s3 + 0)) = 0 → [w1, x2, y3, z3] = [a, b, c, d] := by
    intro h0
    obtain ⟨hw, hx, hy, hz⟩ := hz01 (by omega)
    obtain ⟨hx2, hy2b, hz2b⟩ := hz02 (by omega)
    obtain ⟨hy3, hz3b⟩ := hz03 (by omega)
    subst hw hx hy hz hx2 hy2b hz2b hy3 hz3b
    rfl
  clear hws1 hxs2 hys3 hx1 hy1 hz1 hy2 hz2 hz3 hz01 hz02 hz03
  have hsum : w1 + x2 + y3 + z3 = a + b + c + d := by
    clear c1 c2 c3 c4 e1 e2 e3 e4 h1 h2 h3 hzero; omega
  have hscore : s1 + (s2 + (s3 + 0))
      = (if a < w1 then w1 else 0) + (if b < x2 then x2 else 0)
        + (if c < y3 then y3 else 0) + (if d < z3 then z3 else 0) := by
    rw [e1, e2, e3, e4]
    clear c1 c2 c3 c4 h1 h2 h3 hsum hzero; omega
  exact ⟨w1, x2, y3, z3, rfl, hsum, hscore, c1, c2, c3, c4, hzero⟩

/-- Full characterization of the merge pass toward index 3 on one line. -/
lemma sumLine_spec_high (a b c d : Nat) :
    ∃ w x y z, (sumLine highParams [a, b, c, d]).1 = [w, x, y, z]
      ∧ w + x + y + z = a + b + c + d
      ∧ (sumLine highParams [a, b, c, d]).2
          = (if a < w then w else 0) + (if b < x then x else 0)
            + (if c < y then y else 0) + (if d < z then z else 0)
      ∧ (w = 0 ∨ w = a ∨ w = 2 * a) ∧ (x = 0 ∨ x = b ∨ x = 2 * b)
      ∧ (y = 0 ∨ y = c ∨ y = 2 * c) ∧ (z = 0 ∨ z = d ∨ z = 2 * d)
      ∧ ((sumLine highParams [a, b, c, d]).2 = 0 → [w, x, y, z] = [a, b, c, d]) := by
  rw [sumLine_high_decomp]
  obtain ⟨w1, x1, y1, z1, s1, h1, hsum1, hw1, hx1, hy1, hzs1, hz01⟩ :=
    sumCursor_high_3 a b c d
  simp only [h1, getD_0, getD_1, getD_2, getD_3]
  obtain ⟨w2, x2, y2, s2, h2, hsum2, hw2, hx2, hys2, hz02⟩ :=
    sumCursor_high_2 w1 x1 y1 z1
  simp only [h2, getD_0, getD_1, getD_2, getD_3]
  obtain ⟨w3, x3, s3, h3, hsum3, hw3, hxs3, hz03⟩ := sumCursor_high_1 w2 x2 y2 z1
  simp only [h3]
  have e1 := stepIf hzs1
  have e2 := stepIf2 hy1 hys2
  have e3 := stepIf3 hx1 hx2 hxs3
  have e4 := stepIf0 hw1 hw2 hw3
  have c1 := cellA hzs1
  have c2 := cellB hy1 hys2
  have c3 := cellC hx1 hx2 hxs3
  have c4 := cellD hw1 hw2 hw3
  have hzero : s1 + (s2 + (s3 + 0)) = 0 → [w3, x3, y2, z1] = [a, b, c, d] := by
    intro h0
    obtain ⟨hw, hx, hy, hz⟩ := hz01 (by omega)
    obtain ⟨hw2b, hx2b, hy2b⟩ := hz02 (by omega)
    obtain ⟨hw3b, hx3b⟩ := hz03 (by omega)
    subst hw hx hy hz hw2b hx2b hy2b hw3b hx3b
    rfl
  clear hzs1 hys2 hxs3 hx1 hy1 hw1 hx2 hw2 hw3 hz01 hz02 hz03
  have hsum : w3 + x3 + y2 + z1 = a + b + c + d := by
    clear c1 c2 c3 c4 e1 e2 e3 e4 h1 h2 h3 hzero; omega
  have hscore : s1 + (s2 + (s3 + 0))
      = (if a < w3 then w3 else 0) + (if b < x3 then x3 else 0)
        + (if c < y2 then y2 else 0) + (if d < z1 then z1 else 0) := by
    rw [e4, e3, e2, e1]
    clear c1 c2 c3 c4 h1 h2 h3 hsum hzero; omega
  exact ⟨w3, x3, y2, z1, rfl, hsum, hscore, c4, c3, c2, c1, hzero⟩

end Game2048

/-! The compaction pass: packing characterization. -/

namespace Game2048

set_option maxRecDepth 8192

lemma length_filter_le4 (l : List Nat) :
    (l.filter (fun v => v ≠ 0)).length ≤ l.length :=
  List.length_filter_le _ l

lemma packTo0_length (l : List Nat) : (packTo0 l).length = l.length := by
  have := length_filter_le4 l
  simp only [packTo0, List.length_append, List.length_replicate]
  omega

lemma packTo3_length (l : List Nat) : (packTo3 l).length = l.length := by
  have := length_filter_le4 l
  simp only [packTo3, List.length_append, List.length_replicate]
  omega

lemma sum_filter_ne_zero (l : List Nat) :
    (l.filter (fun v => v ≠ 0)).sum = l.sum := by
  induction l with
  | nil => rfl
  | cons x xs ih =>
    rw [List.filter_cons]
    by_cases hx : x = 0
    · subst hx
      simpa using ih
    · rw [if_pos (by simpa using hx), List.sum_cons, List.sum_cons, ih]

lemma sum_replicate_zero (n : Nat) : (List.replicate n (0 : Nat)).sum = 0 := by
  induction n with
  | zero => rfl
  | succ k ih => simp [List.replicate_succ, ih]

lemma packTo0_sum (l : List Nat) : (packTo0 l).sum = l.sum := by
  have h : packTo0 l = l.filter (fun v => v ≠ 0)
      ++ List.replicate (l.length - (l.filter (fun v => v ≠ 0)).length) 0 := rfl
  rw [h, List.sum_append, sum_filter_ne_zero, sum_replicate_zero]
  omega

lemma packTo3_sum (l : List Nat) : (packTo3 l).sum = l.sum := by
  have h : packTo3 l
      = List.replicate (l.length - (l.filter (fun v => v ≠ 0)).length) 0
        ++ l.filter (fun v => v ≠ 0) := rfl
  rw [h, List.sum_append, sum_filter_ne_zero, sum_replicate_zero]
  omega

lemma packTo0_mem {v : Nat} {l : List Nat} (h : v ∈ packTo0 l) :
    v = 0 ∨ v ∈ l := by
  rcases List.mem_append.mp h with h2 | h2
  · exact Or.inr (List.mem_of_mem_filter h2)
  · exact Or.inl (List.eq_of_mem_replicate h2)

lemma packTo3_mem {v : Nat} {l : List Nat} (h : v ∈ packTo3 l) :
    v = 0 ∨ v ∈ l := by
  rcases List.mem_append.mp h with h2 | h2
  · exact Or.inl (List.eq_of_mem_replicate h2)
  · exact Or.inr (List.mem_of_mem_filter h2)

lemma filter_replicate_zero (n : Nat) :
    (List.replicate n (0 : Nat)).filter (fun v => v ≠ 0) = [] := by
  induction n with
  | zero => rfl
  | succ k ih => simp [List.replicate_succ, List.filter_cons, ih]

lemma packTo0_filter (l : List Nat) :
    (packTo0 l).filter (fun v => v ≠ 0) = l.filter (fun v => v ≠ 0) := by
  simp [packTo0, List.filter_append, filter_replicate_zero, List.filter_filter]

lemma packTo3_filter (l : List Nat) :
    (packTo3 l).filter (fun v => v ≠ 0) = l.filter (fun v => v ≠ 0) := by
  simp [packTo3, List.filter_append, filter_replicate_zero, List.filter_filter]

lemma packTo0_idem (l : List Nat) : packTo0 (packTo0 l) = packTo0 l := by
  calc packTo0 (packTo0 l)
      = (packTo0 l).filter (fun v => v ≠ 0)
          ++ List.replicate
            ((packTo0 l).length - ((packTo0 l).filter (fun v => v ≠ 0)).length) 0 :=
        rfl
    _ = packTo0 l := by
        rw [packTo0_filter, packTo0_length]
        exact rfl

lemma packTo3_idem (l : List Nat) : packTo3 (packTo3 l) = packTo3 l := by
  calc packTo3 (packTo3 l)
      = List.replicate
            ((packTo3 l).length - ((packTo3 l).filter (fun v => v ≠ 0)).length) 0
          ++ (packTo3 l).filter (fun v => v ≠ 0) :=
        rfl
    _ = packTo3 l := by
        rw [packTo3_filter, packTo3_length]
        exact rfl

/-- The compaction pass toward index 0 packs the non-zero cells against
index 0 in their original order, and reports a swap exactly when that
changes the line. -/
lemma moveLine_pack_low (a b c d : Nat) :
    (moveLine lowParams [a, b, c, d]).1 = packTo0 [a, b, c, d]
      ∧ ((moveLine lowParams [a, b, c, d]).2 = true
          ↔ packTo0 [a, b, c, d] ≠ [a, b, c, d]) := by
  by_cases ha : a = 0 <;> by_cases hb : b = 0 <;> by_cases hc : c = 0 <;>
    by_cases hd : d = 0 <;>
    subst_vars <;>
    simp only [moveLine, idxScan_low] <;>
    simp only [moveIdx] <;>
    simp only [cursorScan_low_0, cursorScan_low_1, cursorScan_low_2] <;>
    simp_all [moveCursor, packTo0, toNat_0, toNat_1, toNat_2, toNat_3,
      getD_0, getD_1, getD_2, getD_3, set_0, set_1, set_2, set_3]

/-- The compaction pass toward index 3 packs the non-zero cells against
index 3 in their original order, and reports a swap exactly when that
changes the line. -/
lemma moveLine_pack_high (a b c d : Nat) :
    (moveLine highParams [a, b, c, d]).1 = packTo3 [a, b, c, d]
      ∧ ((moveLine highParams [a, b, c, d]).2 = true
          ↔ packTo3 [a, b, c, d] ≠ [a, b, c, d]) := by
  by_cases ha : a = 0 <;> by_cases hb : b = 0 <;> by_cases hc : c = 0 <;>
    by_cases hd : d = 0 <;>
    subst_vars <;>
    simp only [moveLine, idxScan_high] <;>
    simp only [moveIdx] <;>
    simp only [cursorScan_high_3, cursorScan_high_2, cursorScan_high_1] <;>
    simp_all [moveCursor, packTo3, toNat_0, toNat_1, toNat_2, toNat_3,
      getD_0, getD_1, getD_2, getD_3, set_0, set_1, set_2, set_3]

end Game2048

/-! Grid-level evaluation lemmas. -/

namespace Game2048

set_option maxRecDepth 8192

lemma rowD_0 (r : List Nat) (t : List (List Nat)) : (r :: t).getD 0 [] = r := rfl

lemma rowD_1 (q r : List Nat) (t : List (List Nat)) :
    (q :: r :: t).getD 1 [] = r := rfl

lemma rowD_2 (q r s : List Nat) (t : List (List Nat)) :
    (q :: r :: s :: t).getD 2 [] = s := rfl

lemma rowD_3 (q r s u : List Nat) (t : List (List Nat)) :
    (q :: r :: s :: u :: t).getD 3 [] = u := rfl

lemma horizontal_sum_a (t : List (List Nat)) :
    horizontal_sum t "a"
      = ((t.map fun row => (sumLine lowParams row).1),
         (t.map fun row => (sumLine lowParams row).2).sum) := rfl

lemma horizontal_sum_d (t : List (List Nat)) :
    horizontal_sum t "d"
      = ((t.map fun row => (sumLine highParams row).1),
         (t.map fun row => (sumLine highParams row).2).sum) := rfl

lemma horizontal_move_a (t : List (List Nat)) :
    horizontal_move t "a"
      = ((t.map fun row => (moveLine lowParams row).1),
         (t.map fun row => (moveLine lowParams row).2).any id) := rfl

lemma horizontal_move_d (t : List (List Nat)) :
    horizontal_move t "d"
      = ((t.map fun row => (moveLine highParams row).1),
         (t.map fun row => (moveLine highParams row).2).any id) := rfl

lemma vertical_sum_w (t : List (List Nat)) :
    vertical_sum t "w"
      = (fromCols (((List.range 4).map fun cc => column t cc).map
            fun col => (sumLine lowParams col).1),
         (((List.range 4).map fun cc => column t cc).map
            fun col => (sumLine lowParams col).2).sum) := rfl

lemma vertical_sum_s (t : List (List Nat)) :
    vertical_sum t "s"
      = (fromCols (((List.range 4).map fun cc => column t cc).map
            fun col => (sumLine highParams col).1),
         (((List.range 4).map fun cc => column t cc).map
            fun col => (sumLine highParams col).2).sum) := rfl

lemma vertical_move_w (t : List (List Nat)) :
    vertical_move t "w"
      = (fromCols (((List.range 4).map fun cc => column t cc).map
            fun col => (moveLine lowParams col).1),
         (((List.range 4).map fun cc => column t cc).map
            fun col => (moveLine lowParams col).2).any id) := rfl

lemma vertical_move_s (t : List (List Nat)) :
    vertical_move t "s"
      = (fromCols (((List.range 4).map fun cc => column t cc).map
            fun col => (moveLine highParams col).1),
         (((List.range 4).map fun cc => column t cc).map
            fun col => (moveLine highParams col).2).any id) := rfl

lemma push_blocks_A (t : List (List Nat)) :
    push_blocks t "A"
      = some ((horizontal_move (horizontal_sum t "a").1 "a").1,
          (horizontal_sum t "a").2,
          (horizontal_move (horizontal_sum t "a").1 "a").2) := rfl

lemma push_blocks_D (t : List (List Nat)) :
    push_blocks t "D"
      = some ((horizontal_move (horizontal_sum t "d").1 "d").1,
          (horizontal_sum t "d").2,
          (horizontal_move (horizontal_sum t "d").1 "d").2) := rfl

lemma push_blocks_W (t : List (List Nat)) :
    push_blocks t "W"
      = some ((vertical_move (vertical_sum t "w").1 "w").1,
          (vertical_sum t "w").2,
          (vertical_move (vertical_sum t "w").1 "w").2) := rfl

lemma push_blocks_S (t : List (List Nat)) :
    push_blocks t "S"
      = some ((vertical_move (vertical_sum t "s").1 "s").1,
          (vertical_sum t "s").2,
          (vertical_move (vertical_sum t "s").1 "s").2) := rfl

end Game2048

/-! Shape of the four passes on a fully given 4x4 grid. -/

namespace Game2048

set_option maxRecDepth 8192

lemma sumGrid_a (a b c d e f g h i j k l m n o p : Nat) :
    horizontal_sum [[a,b,c,d],[e,f,g,h],[i,j,k,l],[m,n,o,p]] "a"
      = ([(sumLine lowParams [a,b,c,d]).1, (sumLine lowParams [e,f,g,h]).1,
          (sumLine lowParams [i,j,k,l]).1, (sumLine lowParams [m,n,o,p]).1],
         (sumLine lowParams [a,b,c,d]).2 + ((sumLine lowParams [e,f,g,h]).2
           + ((sumLine lowParams [i,j,k,l]).2
             + ((sumLine lowParams [m,n,o,p]).2 + 0)))) := rfl

lemma sumGrid_d (a b c d e f g h i j k l m n o p : Nat) :
    horizontal_sum [[a,b,c,d],[e,f,g,h],[i,j,k,l],[m,n,o,p]] "d"
      = ([(sumLine highParams [a,b,c,d]).1, (sumLine highParams [e,f,g,h]).1,
          (sumLine highParams [i,j,k,l]).1, (sumLine highParams [m,n,o,p]).1],
         (sumLine highParams [a,b,c,d]).2 + ((sumLine highParams [e,f,g,h]).2
           + ((sumLine highParams [i,j,k,l]).2
             + ((sumLine highParams [m,n,o,p]).2 + 0)))) := rfl

lemma sumGrid_w (a b c d e f g h i j k l m n o p : Nat) :
    vertical_sum [[a,b,c,d],[e,f,g,h],[i,j,k,l],[m,n,o,p]] "w"
      = (fromCols [(sumLine lowParams [a,e,i,m]).1, (sumLine lowParams [b,f,j,n]).1,
          (sumLine lowParams [c,g,k,o]).1, (sumLine lowParams [d,h,l,p]).1],
         (sumLine lowParams [a,e,i,m]).2 + ((sumLine lowParams [b,f,j,n]).2
           + ((sumLine lowParams [c,g,k,o]).2
             + ((sumLine lowParams [d,h,l,p]).2 + 0)))) := rfl

lemma sumGrid_s (a b c d e f g h i j k l m n o p : Nat) :
    vertical_sum [[a,b,c,d],[e,f,g,h],[i,j,k,l],[m,n,o,p]] "s"
      = (fromCols [(sumLine highParams [a,e,i,m]).1, (sumLine highParams [b,f,j,n]).1,
          (sumLine highParams [c,g,k,o]).1, (sumLine highParams [d,h,l,p]).1],
         (sumLine highParams [a,e,i,m]).2 + ((sumLine highParams [b,f,j,n]).2
           + ((sumLine highParams [c,g,k,o]).2
             + ((sumLine highParams [d,h,l,p]).2 + 0)))) := rfl

lemma moveGrid_a (a b c d e f g h i j k l m n o p : Nat) :
    horizontal_move [[a,b,c,d],[e,f,g,h],[i,j,k,l],[m,n,o,p]] "a"
      = ([(moveLine lowParams [a,b,c,d]).1, (moveLine lowParams [e,f,g,h]).1,
          (moveLine lowParams [i,j,k,l]).1, (moveLine lowParams [m,n,o,p]).1],
         ((moveLine lowParams [a,b,c,d]).2 || ((moveLine lowParams [e,f,g,h]).2
           || ((moveLine lowParams [i,j,k,l]).2
             || ((moveLine lowParams [m,n,o,p]).2 || false))))) := rfl

lemma moveGrid_d (a b c d e f g h i j k l m n o p : Nat) :
    horizontal_move [[a,b,c,d],[e,f,g,h],[i,j,k,l],[m,n,o,p]] "d"
      = ([(moveLine highParams [a,b,c,d]).1, (moveLine highParams [e,f,g,h]).1,
          (moveLine highParams [i,j,k,l]).1, (moveLine highParams [m,n,o,p]).1],
         ((moveLine highParams [a,b,c,d]).2 || ((moveLine highParams [e,f,g,h]).2
           || ((moveLine highParams [i,j,k,l]).2
             || ((moveLine highParams [m,n,o,p]).2 || false))))) := rfl

lemma moveGrid_w (a b c d e f g h i j k l m n o p : Nat) :
    vertical_move [[a,b,c,d],[e,f,g,h],[i,j,k,l],[m,n,o,p]] "w"
      = (fromCols [(moveLine lowParams [a,e,i,m]).1, (moveLine lowParams [b,f,j,n]).1,
          (moveLine lowParams [c,g,k,o]).1, (moveLine lowParams [d,h,l,p]).1],
         ((moveLine lowParams [a,e,i,m]).2 || ((moveLine lowParams [b,f,j,n]).2
           || ((moveLine lowParams [c,g,k,o]).2
             || ((moveLine lowParams [d,h,l,p]).2 || false))))) := rfl

lemma moveGrid_s (a b c d e f g h i j k l m n o p : Nat) :
    vertical_move [[a,b,c,d],[e,f,g,h],[i,j,k,l],[m,n,o,p]] "s"
      = (fromCols [(moveLine highParams [a,e,i,m]).1, (moveLine highParams [b,f,j,n]).1,
          (moveLine highParams [c,g,k,o]).1, (moveLine highParams [d,h,l,p]).1],
         ((moveLine highParams [a,e,i,m]).2 || ((moveLine highParams [b,f,j,n]).2
           || ((moveLine highParams [c,g,k,o]).2
             || ((moveLine highParams [d,h,l,p]).2 || false))))) := rfl

lemma totalSum4 (a b c d e f g h i j k l m n o p : Nat) :
    totalSum [[a,b,c,d],[e,f,g,h],[i,j,k,l],[m,n,o,p]]
      = a + b + c + d + e + f + g + h + i + j + k + l + m + n + o + p := by
  simp [totalSum]
  omega

end Game2048

/-!
Cell access on 4x4 tables and the list of empty cells.
-/

namespace Game2048

set_option maxRecDepth 16384
set_option maxHeartbeats 1000000

lemma getD_set_self {α} (d v : α) (l : List α) (i : Nat) (h : i < l.length) :
    (l.set i v).getD i d = v := by
  rw [List.getD_eq_getElem?_getD, List.getElem?_set_self h]
  rfl

lemma getD_set_other {α} (d v : α) (l : List α) (i jj : Nat) (h : i ≠ jj) :
    (l.set i v).getD jj d = l.getD jj d := by
  rw [List.getD_eq_getElem?_getD, List.getElem?_set_ne h, ← List.getD_eq_getElem?_getD]

lemma getD_mem4 {α} (d : α) (l : List α) (i : Nat) (h : i < l.length) :
    l.getD i d ∈ l := by
  rw [List.getD_eq_getElem?_getD, List.getElem?_eq_getElem h]
  exact List.getElem_mem h

lemma mem_get_empty {t : List (List Nat)} {rc : Nat × Nat} :
    rc ∈ get_empty_indexes t
      ↔ rc.1 < 4 ∧ rc.2 < 4 ∧ getCell t rc.1 rc.2 = 0 := by
  obtain ⟨r, c⟩ := rc
  simp only [get_empty_indexes, List.mem_flatMap, List.mem_filterMap, List.mem_range]
  constructor
  · rintro ⟨r2, hr2, c2, hc2, hsome⟩
    split_ifs at hsome with hz
    · cases hsome
      exact ⟨hr2, hc2, hz⟩
  · rintro ⟨hr, hc, hz⟩
    exact ⟨r, hr, c, hc, by rw [if_pos hz]⟩

lemma validCell_zero : validCell 0 := Or.inl rfl

lemma validCell_double {v : Nat} (h : validCell v) : validCell (2 * v) := by
  rcases h with h | ⟨h2, k, rfl⟩
  · subst h
    exact Or.inl rfl
  · exact Or.inr ⟨by omega, k + 1, by ring⟩

lemma validCell_tri {v w : Nat} (h : w = 0 ∨ w = v ∨ w = 2 * v)
    (hv : validCell v) : validCell w := by
  rcases h with rfl | rfl | rfl
  · exact validCell_zero
  · exact hv
  · exact validCell_double hv

lemma validGrid_setCell {t : List (List Nat)} {r c v : Nat}
    (h : validGrid t) (hv : validCell v) : validGrid (setCell t r c v) := by
  obtain ⟨hlen, hrows, hcells⟩ := h
  refine ⟨by simp [setCell, hlen], ?_, ?_⟩
  · intro row hrow
    by_cases hr : r < t.length
    · rcases List.mem_or_eq_of_mem_set hrow with hmem | rfl
      · exact hrows row hmem
      · rw [List.length_set]
        exact hrows _ (getD_mem4 [] t r hr)
    · simp only [setCell] at hrow
      rw [List.set_eq_of_length_le (by omega)] at hrow
      exact hrows row hrow
  · intro row hrow v2 hv2
    by_cases hr : r < t.length
    · rcases List.mem_or_eq_of_mem_set hrow with hmem | rfl
      · exact hcells row hmem v2 hv2
      · rcases List.mem_or_eq_of_mem_set hv2 with hmem2 | rfl
        · exact hcells _ (getD_mem4 [] t r hr) _ hmem2
        · exact hv
    · simp only [setCell] at hrow
      rw [List.set_eq_of_length_le (by omega)] at hrow
      exact hcells row hrow v2 hv2

lemma validGrid_insert {t : List (List Nat)} {pick val : Nat}
    (h : validGrid t) (hval : val = 2 ∨ val = 4) :
    validGrid (insert_block t pick val) := by
  rw [insert_block]
  by_cases hne : get_empty_indexes t = []
  · simp only [hne, if_pos rfl]
    exact h
  · rw [if_neg (by simpa using hne)]
    refine validGrid_setCell h ?_
    rcases hval with rfl | rfl
    · exact Or.inr ⟨by omega, 1, rfl⟩
    · exact Or.inr ⟨by omega, 2, rfl⟩

lemma validGrid4_iff (a b c d e f g h i j k l m n o p : Nat) :
    validGrid [[a,b,c,d],[e,f,g,h],[i,j,k,l],[m,n,o,p]]
      ↔ (validCell a ∧ validCell b ∧ validCell c ∧ validCell d)
        ∧ (validCell e ∧ validCell f ∧ validCell g ∧ validCell h)
        ∧ (validCell i ∧ validCell j ∧ validCell k ∧ validCell l)
        ∧ (validCell m ∧ validCell n ∧ validCell o ∧ validCell p) := by
  constructor
  · rintro ⟨-, -, hcells⟩
    exact ⟨⟨hcells [a,b,c,d] (by simp) a (by simp), hcells [a,b,c,d] (by simp) b (by simp), hcells [a,b,c,d] (by simp) c (by simp), hcells [a,b,c,d] (by simp) d (by simp)⟩, ⟨hcells [e,f,g,h] (by simp) e (by simp), hcells [e,f,g,h] (by simp) f (by simp), hcells [e,f,g,h] (by simp) g (by simp), hcells [e,f,g,h] (by simp) h (by simp)⟩, ⟨hcells [i,j,k,l] (by simp) i (by simp), hcells [i,j,k,l] (by simp) j (by simp), hcells [i,j,k,l] (by simp) k (by simp), hcells [i,j,k,l] (by simp) l (by simp)⟩, ⟨hcells [m,n,o,p] (by simp) m (by simp), hcells [m,n,o,p] (by simp) n (by simp), hcells [m,n,o,p] (by simp) o (by simp), hcells [m,n,o,p] (by simp) p (by simp)⟩⟩
  · rintro ⟨⟨h1, h2, h3, h4⟩, ⟨h5, h6, h7, h8⟩, ⟨h9, h10, h11, h12⟩,
      ⟨h13, h14, h15, h16⟩⟩
    refine ⟨rfl, ?_, ?_⟩
    · intro row hrow
      simp only [List.mem_cons, List.not_mem_nil, or_false] at hrow
      rcases hrow with rfl | rfl | rfl | rfl <;> rfl
    · intro row hrow v hv
      simp only [List.mem_cons, List.not_mem_nil, or_false] at hrow
      rcases hrow with rfl | rfl | rfl | rfl <;>
        simp only [List.mem_cons, List.not_mem_nil, or_false] at hv <;>
        rcases hv with rfl | rfl | rfl | rfl <;>
        assumption

lemma validCell_pack0 {w x y z : Nat} (hw : validCell w) (hx : validCell x)
    (hy : validCell y) (hz : validCell z) :
    ∀ v ∈ packTo0 [w, x, y, z], validCell v := by
  intro v hv
  rcases packTo0_mem hv with rfl | hv2
  · exact validCell_zero
  · simp only [List.mem_cons, List.not_mem_nil, or_false] at hv2
    rcases hv2 with rfl | rfl | rfl | rfl <;> assumption

lemma validCell_pack3 {w x y z : Nat} (hw : validCell w) (hx : validCell x)
    (hy : validCell y) (hz : validCell z) :
    ∀ v ∈ packTo3 [w, x, y, z], validCell v := by
  intro v hv
  rcases packTo3_mem hv with rfl | hv2
  · exact validCell_zero
  · simp only [List.mem_cons, List.not_mem_nil, or_false] at hv2
    rcases hv2 with rfl | rfl | rfl | rfl <;> assumption

lemma validCell_two : validCell 2 := Or.inr ⟨by omega, 1, rfl⟩

lemma validCell_four : validCell 4 := Or.inr ⟨by omega, 2, rfl⟩

lemma range4 : List.range 4 = [0, 1, 2, 3] := rfl

lemma gainedCells4 (a b c d e f g h i j k l m n o p
    a2 b2 c2 d2 e2 f2 g2 h2 i2 j2 k2 l2 m2 n2 o2 p2 : Nat) :
    gainedCells [[a,b,c,d],[e,f,g,h],[i,j,k,l],[m,n,o,p]]
        [[a2,b2,c2,d2],[e2,f2,g2,h2],[i2,j2,k2,l2],[m2,n2,o2,p2]]
      = ((if a < a2 then a2 else 0) + (if b < b2 then b2 else 0)
          + (if c < c2 then c2 else 0) + (if d < d2 then d2 else 0))
        + ((if e < e2 then e2 else 0) + (if f < f2 then f2 else 0)
          + (if g < g2 then g2 else 0) + (if h < h2 then h2 else 0))
        + ((if i < i2 then i2 else 0) + (if j < j2 then j2 else 0)
          + (if k < k2 then k2 else 0) + (if l < l2 then l2 else 0))
        + ((if m < m2 then m2 else 0) + (if n < n2 then n2 else 0)
          + (if o < o2 then o2 else 0) + (if p < p2 then p2 else 0)) := by
  unfold gainedCells
  simp only [range4, List.map_cons, List.map_nil, List.sum_cons, List.sum_nil,
    getCell, rowD_0, rowD_1, rowD_2, rowD_3, getD_0, getD_1, getD_2, getD_3]
  omega


/-- A line whose merge pass scores zero still scores zero after
compaction toward index 0: packing preserves the sequence of non-zero
values that the zero-skipping merge scan compares. -/

lemma sumLine_zero_pack_low (a b c d : Nat)
    (h : (sumLine lowParams [a, b, c, d]).2 = 0) :
    (sumLine lowParams (packTo0 [a, b, c, d])).2 = 0 := by
  by_cases ha : a = 0
  · subst ha
    by_cases hb : b = 0
    · subst hb
      by_cases hc : c = 0
      · subst hc
        by_cases hd : d = 0
        · subst hd
          have hp : packTo0 [0, 0, 0, 0] = [0, 0, 0, 0] := by simp [packTo0]
          rw [hp]
          exact h
        ·
          have hp : packTo0 [0, 0, 0, d] = [d, 0, 0, 0] := by simp [packTo0, hd]
          rw [hp]
          rw [sumLine_low_decomp] at h ⊢
          simp only [sumCursor, toNat_0, toNat_1, toNat_2, toNat_3,
        getD_0, getD_1, getD_2, getD_3, set_0, set_1, set_2, set_3,
        eq_self_iff_true, if_true, if_false, ite_true, ite_false, hd] at h ⊢ <;> omega
      ·
        by_cases hd : d = 0
        · subst hd
          have hp : packTo0 [0, 0, c, 0] = [c, 0, 0, 0] := by simp [packTo0, hc]
          rw [hp]
          rw [sumLine_low_decomp] at h ⊢
          simp only [sumCursor, toNat_0, toNat_1, toNat_2, toNat_3,
        getD_0, getD_1, getD_2, getD_3, set_0, set_1, set_2, set_3,
        eq_self_iff_true, if_true, if_false, ite_true, ite_false, hc] at h ⊢ <;> omega
        ·
          have hp : packTo0 [0, 0, c, d] = [c, d, 0, 0] := by simp [packTo0, hc, hd]
          rw [hp]
          rw [sumLine_low_decomp] at h ⊢
          by_cases hq1 : d = c <;> simp only [sumCursor, toNat_0, toNat_1, toNat_2, toNat_3,
        getD_0, getD_1, getD_2, getD_3, set_0, set_1, set_2, set_3,
        eq_self_iff_true, if_true, if_false, ite_true, ite_false, hc, hd, hq1] at h ⊢ <;> omega
    ·
      by_cases hc : c = 0
      · subst hc
        by_cases hd : d = 0
        · subst hd
          have hp : packTo0 [0, b, 0, 0] = [b, 0, 0, 0] := by simp [packTo0, hb]
          rw [hp]
          rw [sumLine_low_decomp] at h ⊢
          simp only [sumCursor, toNat_0, toNat_1, toNat_2, toNat_3,
        getD_0, getD_1, getD_2, getD_3, set_0, set_1, set_2, set_3,
        eq_self_iff_true, if_true, if_false, ite_true, ite_false, hb] at h ⊢ <;> omega
        ·
          have hp : packTo0 [0, b, 0, d] = [b, d, 0, 0] := by simp [packTo0, hb, hd]
          rw [hp]
          rw [sumLine_low_decomp] at h ⊢
          by_cases hq1 : d = b <;> simp only [sumCursor, toNat_0, toNat_1, toNat_2, toNat_3,
        getD_0, getD_1, getD_2, getD_3, set_0, set_1, set_2, set_3,
        eq_self_iff_true, if_true, if_false, ite_true, ite_false, hb, hd, hq1] at h ⊢ <;> omega
      ·
        by_cases hd : d = 0
        · subst hd
          have hp : packTo0 [0, b, c, 0] = [b, c, 0, 0] := by simp [packTo0, hb, hc]
          rw [hp]
          rw [sumLine_low_decomp] at h ⊢
          by_cases hq1 : c = b <;> simp only [sumCursor, toNat_0, toNat_1, toNat_2, toNat_3,
        getD_0, getD_1, getD_2, getD_3, set_0, set_1, set_2, set_3,
        eq_self_iff_true, if_true, if_false, ite_true, ite_false, hb, hc, hq1] at h ⊢ <;> omega
        ·
          have hp : packTo0 [0, b, c, d] = [b, c, d, 0] := by simp [packTo0, hb, hc, hd]
          rw [hp]
          rw [sumLine_low_decomp] at h ⊢
          by_cases hq1 : c = b <;> by_cases hq2 : d = c <;> simp only [sumCursor, toNat_0, toNat_1, toNat_2, toNat_3,
        getD_0, getD_1, getD_2, getD_3, set_0, set_1, set_2, set_3,
        eq_self_iff_true, if_true, if_false, ite_true, ite_false, hb, hc, hd, hq1, hq2] at h ⊢ <;> omega
  ·
    by_cases hb : b = 0
    · subst hb
      by_cases hc : c = 0
      · subst hc
        by_cases hd : d = 0
        · subst hd
          have hp : packTo0 [a, 0, 0, 0] = [a, 0, 0, 0] := by simp [packTo0, ha]
          rw [hp]
          exact h
        ·
          have hp : packTo0 [a, 0, 0, d] = [a, d, 0, 0] := by simp [packTo0, ha, hd]
          rw [hp]
          rw [sumLine_low_decomp] at h ⊢
          by_cases hq1 : d = a <;> simp only [sumCursor, toNat_0, toNat_1, toNat_2, toNat_3,
        getD_0, getD_1, getD_2, getD_3, set_0, set_1, set_2, set_3,
        eq_self_iff_true, if_true, if_false, ite_true, ite_false, ha, hd, hq1] at h ⊢ <;> omega
      ·
        by_cases hd : d = 0
        · subst hd
          have hp : packTo0 [a, 0, c, 0] = [a, c, 0, 0] := by simp [packTo0, ha, hc]
          rw [hp]
          rw [sumLine_low_decomp] at h ⊢
          by_cases hq1 : c = a <;> simp only [sumCursor, toNat_0, toNat_1, toNat_2, toNat_3,
        getD_0, getD_1, getD_2, getD_3, set_0, set_1, set_2, set_3,
        eq_self_iff_true, if_true, if_false, ite_true, ite_false, ha, hc, hq1] at h ⊢ <;> omega
        ·
          have hp : packTo0 [a, 0, c, d] = [a, c, d, 0] := by simp [packTo0, ha, hc, hd]
          rw [hp]
          rw [sumLine_low_decomp] at h ⊢
          by_cases hq1 : c = a <;> by_cases hq2 : d = c <;> simp only [sumCursor, toNat_0, toNat_1, toNat_2, toNat_3,
        getD_0, getD_1, getD_2, getD_3, set_0, set_1, set_2, set_3,
        eq_self_iff_true, if_true, if_false, ite_true, ite_false, ha, hc, hd, hq1, hq2] at h ⊢ <;> omega
    ·
      by_cases hc : c = 0
      · subst hc
        by_cases hd : d = 0
        · subst hd
          have hp : packTo0 [a, b, 0, 0] = [a, b, 0, 0] := by simp [packTo0, ha, hb]
          rw [hp]
          exact h
        ·
          have hp : packTo0 [a, b, 0, d] = [a, b, d, 0] := by simp [packTo0, ha, hb, hd]
          rw [hp]
          rw [sumLine_low_decomp] at h ⊢
          by_cases hq1 : b = a <;> by_cases hq2 : d = b <;> simp only [sumCursor, toNat_0, toNat_1, toNat_2, toNat_3,
        getD_0, getD_1, getD_2, getD_3, set_0, set_1, set_2, set_3,
        eq_self_iff_true, if_true, if_false, ite_true, ite_false, ha, hb, hd, hq1, hq2] at h ⊢ <;> omega
      ·
        by_cases hd : d = 0
        · subst hd
          have hp : packTo0 [a, b, c, 0] = [a, b, c, 0] := by simp [packTo0, ha, hb, hc]
          rw [hp]
          exact h
        ·
          have hp : packTo0 [a, b, c, d] = [a, b, c, d] := by simp [packTo0, ha, hb, hc, hd]
          rw [hp]
          exact h

lemma sumLine_zero_pack_high (a b c d : Nat)
    (h : (sumLine highParams [a, b, c, d]).2 = 0) :
    (sumLine highParams (packTo3 [a, b, c, d])).2 = 0 := by
  by_cases ha : a = 0
  · subst ha
    by_cases hb : b = 0
    · subst hb
      by_cases hc : c = 0
      · subst hc
        by_cases hd : d = 0
        · subst hd
          have hp : packTo3 [0, 0, 0, 0] = [0, 0, 0, 0] := by simp [packTo3]
          rw [hp]
          exact h
        ·
          have hp : packTo3 [0, 0, 0, d] = [0, 0, 0, d] := by simp [packTo3, hd]
          rw [hp]
          exact h
      ·
        by_cases hd : d = 0
        · subst hd
          have hp : packTo3 [0, 0, c, 0] = [0, 0, 0, c] := by simp [packTo3, hc]
          rw [hp]
          rw [sumLine_high_decomp] at h ⊢
          simp only [sumCursor, toNat_0, toNat_1, toNat_2, toNat_3,
        getD_0, getD_1, getD_2, getD_3, set_0, set_1, set_2, set_3,
        eq_self_iff_true, if_true, if_false, ite_true, ite_false, hc] at h ⊢ <;> omega
        ·
          have hp : packTo3 [0, 0, c, d] = [0, 0, c, d] := by simp [packTo3, hc, hd]
          rw [hp]
          exact h
    ·
      by_cases hc : c = 0
      · subst hc
        by_cases hd : d = 0
        · subst hd
          have hp : packTo3 [0, b, 0, 0] = [0, 0, 0, b] := by simp [packTo3, hb]
          rw [hp]
          rw [sumLine_high_decomp] at h ⊢
          simp only [sumCursor, toNat_0, toNat_1, toNat_2, toNat_3,
        getD_0, getD_1, getD_2, getD_3, set_0, set_1, set_2, set_3,
        eq_self_iff_true, if_true, if_false, ite_true, ite_false, hb] at h ⊢ <;> omega
        ·
          have hp : packTo3 [0, b, 0, d] = [0, 0, b, d] := by simp [packTo3, hb, hd]
          rw [hp]
          rw [sumLine_high_decomp] at h ⊢
          by_cases hq1 : b = d <;> simp only [sumCursor, toNat_0, toNat_1, toNat_2, toNat_3,
        getD_0, getD_1, getD_2, getD_3, set_0, set_1, set_2, set_3,
        eq_self_iff_true, if_true, if_false, ite_true, ite_false, hb, hd, hq1] at h ⊢ <;> omega
      ·
        by_cases hd : d = 0
        · subst hd
          have hp : packTo3 [0, b, c, 0] = [0, 0, b, c] := by simp [packTo3, hb, hc]
          rw [hp]
          rw [sumLine_high_decomp] at h ⊢
          by_cases hq1 : b = c <;> simp only [sumCursor, toNat_0, toNat_1, toNat_2, toNat_3,
        getD_0, getD_1, getD_2, getD_3, set_0, set_1, set_2, set_3,
        eq_self_iff_true, if_true, if_false, ite_true, ite_false, hb, hc, hq1] at h ⊢ <;> omega
        ·
          have hp : packTo3 [0, b, c, d] = [0, b, c, d] := by simp [packTo3, hb, hc, hd]
          rw [hp]
          exact h
  ·
    by_cases hb : b = 0
    · subst hb
      by_cases hc : c = 0
      · subst hc
        by_cases hd : d = 0
        · subst hd
          have hp : packTo3 [a, 0, 0, 0] = [0, 0, 0, a] := by simp [packTo3, ha]
          rw [hp]
          rw [sumLine_high_decomp] at h ⊢
          simp only [sumCursor, toNat_0, toNat_1, toNat_2, toNat_3,
        getD_0, getD_1, getD_2, getD_3, set_0, set_1, set_2, set_3,
        eq_self_iff_true, if_true, if_false, ite_true, ite_false, ha] at h ⊢ <;> omega
        ·
          have hp : packTo3 [a, 0, 0, d] = [0, 0, a, d] := by simp [packTo3, ha, hd]
          rw [hp]
          rw [sumLine_high_decomp] at h ⊢
          by_cases hq1 : a = d <;> simp only [sumCursor, toNat_0, toNat_1, toNat_2, toNat_3,
        getD_0, getD_1, getD_2, getD_3, set_0, set_1, set_2, set_3,
        eq_self_iff_true, if_true, if_false, ite_true, ite_false, ha, hd, hq1] at h ⊢ <;> omega
      ·
        by_cases hd : d = 0
        · subst hd
          have hp : packTo3 [a, 0, c, 0] = [0, 0, a, c] := by simp [packTo3, ha, hc]
          rw [hp]
          rw [sumLine_high_decomp] at h ⊢
          by_cases hq1 : a = c <;> simp only [sumCursor, toNat_0, toNat_1, toNat_2, toNat_3,
        getD_0, getD_1, getD_2, getD_3, set_0, set_1, set_2, set_3,
        eq_self_iff_true, if_true, if_false, ite_true, ite_false, ha, hc, hq1] at h ⊢ <;> omega
        ·
          have hp : packTo3 [a, 0, c, d] = [0, a, c, d] := by simp [packTo3, ha, hc, hd]
          rw [hp]
          rw [sumLine_high_decomp] at h ⊢
          by_cases hq1 : a = c <;> by_cases hq2 : c = d <;> simp only [sumCursor, toNat_0, toNat_1, toNat_2, toNat_3,
        getD_0, getD_1, getD_2, getD_3, set_0, set_1, set_2, set_3,
        eq_self_iff_true, if_true, if_false, ite_true, ite_false, ha, hc, hd, hq1, hq2] at h ⊢ <;> omega
    ·
      by_cases hc : c = 0
      · subst hc
        by_cases hd : d = 0
        · subst hd
          have hp : packTo3 [a, b, 0, 0] = [0, 0, a, b] := by simp [packTo3, ha, hb]
          rw [hp]
          rw [sumLine_high_decomp] at h ⊢
          by_cases hq1 : a = b <;> simp only [sumCursor, toNat_0, toNat_1, toNat_2, toNat_3,
        getD_0, getD_1, getD_2, getD_3, set_0, set_1, set_2, set_3,
        eq_self_iff_true, if_true, if_false, ite_true, ite_false, ha, hb, hq1] at h ⊢ <;> omega
        ·
          have hp : packTo3 [a, b, 0, d] = [0, a, b, d] := by simp [packTo3, ha, hb, hd]
          rw [hp]
          rw [sumLine_high_decomp] at h ⊢
          by_cases hq1 : a = b <;> by_cases hq2 : b = d <;> simp only [sumCursor, toNat_0, toNat_1, toNat_2, toNat_3,
        getD_0, getD_1, getD_2, getD_3, set_0, set_1, set_2, set_3,
        eq_self_iff_true, if_true, if_false, ite_true, ite_false, ha, hb, hd, hq1, hq2] at h ⊢ <;> omega
      ·
        by_cases hd : d = 0
        · subst hd
          have hp : packTo3 [a, b, c, 0] = [0, a, b, c] := by simp [packTo3, ha, hb, hc]
          rw [hp]
          rw [sumLine_high_decomp] at h ⊢
          by_cases hq1 : a = b <;> by_cases hq2 : b = c <;> simp only [sumCursor, toNat_0, toNat_1, toNat_2, toNat_3,
        getD_0, getD_1, getD_2, getD_3, set_0, set_1, set_2, set_3,
        eq_self_iff_true, if_true, if_false, ite_true, ite_false, ha, hb, hc, hq1, hq2] at h ⊢ <;> omega
        ·
          have hp : packTo3 [a, b, c, d] = [a, b, c, d] := by simp [packTo3, ha, hb, hc, hd]
          rw [hp]
          exact h

lemma sumLine_zero_id_low (a b c d : Nat)
    (h : (sumLine lowParams [a, b, c, d]).2 = 0) :
    sumLine lowParams [a, b, c, d] = ([a, b, c, d], 0) := by
  obtain ⟨w, x, y, z, h1, -, -, -, -, -, -, hid⟩ := sumLine_spec_low a b c d
  exact Prod.ext_iff.mpr ⟨h1.trans (hid h), h⟩

lemma sumLine_zero_id_high (a b c d : Nat)
    (h : (sumLine highParams [a, b, c, d]).2 = 0) :
    sumLine highParams [a, b, c, d] = ([a, b, c, d], 0) := by
  obtain ⟨w, x, y, z, h1, -, -, -, -, -, -, hid⟩ := sumLine_spec_high a b c d
  exact Prod.ext_iff.mpr ⟨h1.trans (hid h), h⟩

lemma sumLine_pack_id_low (a b c d : Nat)
    (h : (sumLine lowParams [a, b, c, d]).2 = 0) :
    sumLine lowParams (packTo0 [a, b, c, d]) = (packTo0 [a, b, c, d], 0) := by
  obtain ⟨p1, p2, p3, p4, hp⟩ :=
    list4 (by rw [packTo0_length]; rfl : (packTo0 [a, b, c, d]).length = 4)
  have h2 := sumLine_zero_pack_low a b c d h
  rw [hp] at h2 ⊢
  exact sumLine_zero_id_low p1 p2 p3 p4 h2

lemma sumLine_pack_id_high (a b c d : Nat)
    (h : (sumLine highParams [a, b, c, d]).2 = 0) :
    sumLine highParams (packTo3 [a, b, c, d]) = (packTo3 [a, b, c, d], 0) := by
  obtain ⟨p1, p2, p3, p4, hp⟩ :=
    list4 (by rw [packTo3_length]; rfl : (packTo3 [a, b, c, d]).length = 4)
  have h2 := sumLine_zero_pack_high a b c d h
  rw [hp] at h2 ⊢
  exact sumLine_zero_id_high p1 p2 p3 p4 h2

lemma moveLine_pack_id_low (a b c d : Nat) :
    moveLine lowParams (packTo0 [a, b, c, d]) = (packTo0 [a, b, c, d], false) := by
  obtain ⟨p1, p2, p3, p4, hp⟩ :=
    list4 (by rw [packTo0_length]; rfl : (packTo0 [a, b, c, d]).length = 4)
  have hpp : packTo0 [p1, p2, p3, p4] = [p1, p2, p3, p4] := by
    rw [← hp, packTo0_idem, hp]
  obtain ⟨hm1, hm2⟩ := moveLine_pack_low p1 p2 p3 p4
  rw [hp]
  refine Prod.ext_iff.mpr ⟨hm1.trans hpp, ?_⟩
  show (moveLine lowParams [p1, p2, p3, p4]).2 = false
  rcases Bool.eq_false_or_eq_true ((moveLine lowParams [p1, p2, p3, p4]).2) with hb | hb
  · exact (hm2.mp hb hpp).elim
  · exact hb

lemma moveLine_pack_id_high (a b c d : Nat) :
    moveLine highParams (packTo3 [a, b, c, d]) = (packTo3 [a, b, c, d], false) := by
  obtain ⟨p1, p2, p3, p4, hp⟩ :=
    list4 (by rw [packTo3_length]; rfl : (packTo3 [a, b, c, d]).length = 4)
  have hpp : packTo3 [p1, p2, p3, p4] = [p1, p2, p3, p4] := by
    rw [← hp, packTo3_idem, hp]
  obtain ⟨hm1, hm2⟩ := moveLine_pack_high p1 p2 p3 p4
  rw [hp]
  refine Prod.ext_iff.mpr ⟨hm1.trans hpp, ?_⟩
  show (moveLine highParams [p1, p2, p3, p4]).2 = false
  rcases Bool.eq_false_or_eq_true ((moveLine highParams [p1, p2, p3, p4]).2) with hb | hb
  · exact (hm2.mp hb hpp).elim
  · exact hb

lemma push_eq_passes (t : List (List Nat)) (dir : String)
    (h : dir ∈ (["W", "A", "S", "D"] : List String)) :
    push_blocks t dir
      = some ((move_pass (merge_pass t dir).1 dir).1, (merge_pass t dir).2,
          (move_pass (merge_pass t dir).1 dir).2) := by
  fin_cases h <;> rfl

lemma or4_iff {b1 b2 b3 b4 : Bool} {P1 P2 P3 P4 : Prop}
    (h1 : b1 = true ↔ ¬ P1) (h2 : b2 = true ↔ ¬ P2)
    (h3 : b3 = true ↔ ¬ P3) (h4 : b4 = true ↔ ¬ P4) :
    ((b1 || (b2 || (b3 || (b4 || false)))) = true ↔ ¬ (P1 ∧ P2 ∧ P3 ∧ P4)) := by
  simp only [Bool.or_eq_true, Bool.false_eq_true, or_false, h1, h2, h3, h4]
  tauto


/-- C1 (amended): for every 4x4 grid and direction key, `push_blocks`
splits into the merge pass and the compaction pass, and its `changed`
flag is true iff the compaction pass changed the post-merge grid.  The
flag only reports the compaction phase: a merge that is not followed by
a slide is NOT reported (see the counterexample). -/
theorem push_changed_iff_compacted (a b c d e f g h i j k l m n o p : Nat) (dir : String)
    (hdir : dir ∈ (["W", "A", "S", "D"] : List String)) :
    ∃ t1 s t2 mv,
      merge_pass [[a,b,c,d],[e,f,g,h],[i,j,k,l],[m,n,o,p]] dir = (t1, s)
        ∧ move_pass t1 dir = (t2, mv)
        ∧ push_blocks [[a,b,c,d],[e,f,g,h],[i,j,k,l],[m,n,o,p]] dir = some (t2, s, mv)
        ∧ (mv = true ↔ t2 ≠ t1) := by
  have hpush := push_eq_passes [[a,b,c,d],[e,f,g,h],[i,j,k,l],[m,n,o,p]] dir hdir
  fin_cases hdir
  · -- W
    obtain ⟨w1, x1, y1, z1, hr1, -, -, -, -, -, -, -⟩ := sumLine_spec_low a e i m
    obtain ⟨w2, x2, y2, z2, hr2, -, -, -, -, -, -, -⟩ := sumLine_spec_low b f j n
    obtain ⟨w3, x3, y3, z3, hr3, -, -, -, -, -, -, -⟩ := sumLine_spec_low c g k o
    obtain ⟨w4, x4, y4, z4, hr4, -, -, -, -, -, -, -⟩ := sumLine_spec_low d h l p
    obtain ⟨hm1, hf1⟩ := moveLine_pack_low w1 x1 y1 z1
    obtain ⟨hm2, hf2⟩ := moveLine_pack_low w2 x2 y2 z2
    obtain ⟨hm3, hf3⟩ := moveLine_pack_low w3 x3 y3 z3
    obtain ⟨hm4, hf4⟩ := moveLine_pack_low w4 x4 y4 z4
    obtain ⟨q1, q2, q3, q4, hq1⟩ :=
      list4 (by rw [packTo0_length]; rfl : (packTo0 [w1,x1,y1,z1]).length = 4)
    obtain ⟨q5, q6, q7, q8, hq2⟩ :=
      list4 (by rw [packTo0_length]; rfl : (packTo0 [w2,x2,y2,z2]).length = 4)
    obtain ⟨q9, q10, q11, q12, hq3⟩ :=
      list4 (by rw [packTo0_length]; rfl : (packTo0 [w3,x3,y3,z3]).length = 4)
    obtain ⟨q13, q14, q15, q16, hq4⟩ :=
      list4 (by rw [packTo0_length]; rfl : (packTo0 [w4,x4,y4,z4]).length = 4)
    have hmerge : merge_pass [[a,b,c,d],[e,f,g,h],[i,j,k,l],[m,n,o,p]] "W"
        = ([[w1,w2,w3,w4],[x1,x2,x3,x4],[y1,y2,y3,y4],[z1,z2,z3,z4]],
           (sumLine lowParams [a,e,i,m]).2 + ((sumLine lowParams [b,f,j,n]).2
             + ((sumLine lowParams [c,g,k,o]).2 + ((sumLine lowParams [d,h,l,p]).2 + 0)))) := by
      show vertical_sum _ "w" = _
      rw [sumGrid_w, hr1, hr2, hr3, hr4, fromCols4]
    have hmove : move_pass [[w1,w2,w3,w4],[x1,x2,x3,x4],[y1,y2,y3,y4],[z1,z2,z3,z4]] "W"
        = ([[q1,q5,q9,q13],[q2,q6,q10,q14],[q3,q7,q11,q15],[q4,q8,q12,q16]],
           ((moveLine lowParams [w1,x1,y1,z1]).2 || ((moveLine lowParams [w2,x2,y2,z2]).2
             || ((moveLine lowParams [w3,x3,y3,z3]).2
               || ((moveLine lowParams [w4,x4,y4,z4]).2 || false))))) := by
      show vertical_move _ "w" = _
      rw [moveGrid_w, hm1, hm2, hm3, hm4, hq1, hq2, hq3, hq4, fromCols4]
    refine ⟨_, _, _, _, hmerge, hmove, ?_, ?_⟩
    · rw [hpush, hmerge, hmove]
    · rw [hq1] at hf1
      rw [hq2] at hf2
      rw [hq3] at hf3
      rw [hq4] at hf4
      rw [or4_iff hf1 hf2 hf3 hf4]
      exact not_congr (Iff.symm
        (by constructor <;> intro hcc <;>
              simp only [List.cons.injEq, and_true] at hcc ⊢ <;> omega))
  · -- A
    obtain ⟨w1, x1, y1, z1, hr1, -, -, -, -, -, -, -⟩ := sumLine_spec_low a b c d
    obtain ⟨w2, x2, y2, z2, hr2, -, -, -, -, -, -, -⟩ := sumLine_spec_low e f g h
    obtain ⟨w3, x3, y3, z3, hr3, -, -, -, -, -, -, -⟩ := sumLine_spec_low i j k l
    obtain ⟨w4, x4, y4, z4, hr4, -, -, -, -, -, -, -⟩ := sumLine_spec_low m n o p
    obtain ⟨hm1, hf1⟩ := moveLine_pack_low w1 x1 y1 z1
    obtain ⟨hm2, hf2⟩ := moveLine_pack_low w2 x2 y2 z2
    obtain ⟨hm3, hf3⟩ := moveLine_pack_low w3 x3 y3 z3
    obtain ⟨hm4, hf4⟩ := moveLine_pack_low w4 x4 y4 z4
    have hmerge : merge_pass [[a,b,c,d],[e,f,g,h],[i,j,k,l],[m,n,o,p]] "A"
        = ([[w1,x1,y1,z1],[w2,x2,y2,z2],[w3,x3,y3,z3],[w4,x4,y4,z4]],
           (sumLine lowParams [a,b,c,d]).2 + ((sumLine lowParams [e,f,g,h]).2
             + ((sumLine lowParams [i,j,k,l]).2 + ((sumLine lowParams [m,n,o,p]).2 + 0)))) := by
      show horizontal_sum _ "a" = _
      rw [sumGrid_a, hr1, hr2, hr3, hr4]
    have hmove : move_pass [[w1,x1,y1,z1],[w2,x2,y2,z2],[w3,x3,y3,z3],[w4,x4,y4,z4]] "A"
        = ([packTo0 [w1,x1,y1,z1], packTo0 [w2,x2,y2,z2],
            packTo0 [w3,x3,y3,z3], packTo0 [w4,x4,y4,z4]],
           ((moveLine lowParams [w1,x1,y1,z1]).2 || ((moveLine lowParams [w2,x2,y2,z2]).2
             || ((moveLine lowParams [w3,x3,y3,z3]).2
               || ((moveLine lowParams [w4,x4,y4,z4]).2 || false))))) := by
      show horizontal_move _ "a" = _
      rw [moveGrid_a, hm1, hm2, hm3, hm4]
    refine ⟨_, _, _, _, hmerge, hmove, ?_, ?_⟩
    · rw [hpush, hmerge, hmove]
    · rw [or4_iff hf1 hf2 hf3 hf4]
      exact not_congr (Iff.symm
        (by constructor <;> intro hcc <;>
              simp only [List.cons.injEq, and_true] at hcc ⊢ <;>
              exact ⟨hcc.1, hcc.2.1, hcc.2.2.1, hcc.2.2.2⟩))
  · -- S
    obtain ⟨w1, x1, y1, z1, hr1, -, -, -, -, -, -, -⟩ := sumLine_spec_high a e i m
    obtain ⟨w2, x2, y2, z2, hr2, -, -, -, -, -, -, -⟩ := sumLine_spec_high b f j n
    obtain ⟨w3, x3, y3, z3, hr3, -, -, -, -, -, -, -⟩ := sumLine_spec_high c g k o
    obtain ⟨w4, x4, y4, z4, hr4, -, -, -, -, -, -, -⟩ := sumLine_spec_high d h l p
    obtain ⟨hm1, hf1⟩ := moveLine_pack_high w1 x1 y1 z1
    obtain ⟨hm2, hf2⟩ := moveLine_pack_high w2 x2 y2 z2
    obtain ⟨hm3, hf3⟩ := moveLine_pack_high w3 x3 y3 z3
    obtain ⟨hm4, hf4⟩ := moveLine_pack_high w4 x4 y4 z4
    obtain ⟨q1, q2, q3, q4, hq1⟩ :=
      list4 (by rw [packTo3_length]; rfl : (packTo3 [w1,x1,y1,z1]).length = 4)
    obtain ⟨q5, q6, q7, q8, hq2⟩ :=
      list4 (by rw [packTo3_length]; rfl : (packTo3 [w2,x2,y2,z2]).length = 4)
    obtain ⟨q9, q10, q11, q12, hq3⟩ :=
      list4 (by rw [packTo3_length]; rfl : (packTo3 [w3,x3,y3,z3]).length = 4)
    obtain ⟨q13, q14, q15, q16, hq4⟩ :=
      list4 (by rw [packTo3_length]; rfl : (packTo3 [w4,x4,y4,z4]).length = 4)
    have hmerge : merge_pass [[a,b,c,d],[e,f,g,h],[i,j,k,l],[m,n,o,p]] "S"
        = ([[w1,w2,w3,w4],[x1,x2,x3,x4],[y1,y2,y3,y4],[z1,z2,z3,z4]],
           (sumLine highParams [a,e,i,m]).2 + ((sumLine highParams [b,f,j,n]).2
             + ((sumLine highParams [c,g,k,o]).2 + ((sumLine highParams [d,h,l,p]).2 + 0)))) := by
      show vertical_sum _ "s" = _
      rw [sumGrid_s, hr1, hr2, hr3, hr4, fromCols4]
    have hmove : move_pass [[w1,w2,w3,w4],[x1,x2,x3,x4],[y1,y2,y3,y4],[z1,z2,z3,z4]] "S"
        = ([[q1,q5,q9,q13],[q2,q6,q10,q14],[q3,q7,q11,q15],[q4,q8,q12,q16]],
           ((moveLine highParams [w1,x1,y1,z1]).2 || ((moveLine highParams [w2,x2,y2,z2]).2
             || ((moveLine highParams [w3,x3,y3,z3]).2
               || ((moveLine highParams [w4,x4,y4,z4]).2 || false))))) := by
      show vertical_move _ "s" = _
      rw [moveGrid_s, hm1, hm2, hm3, hm4, hq1, hq2, hq3, hq4, fromCols4]
    refine ⟨_, _, _, _, hmerge, hmove, ?_, ?_⟩
    · rw [hpush, hmerge, hmove]
    · rw [hq1] at hf1
      rw [hq2] at hf2
      rw [hq3] at hf3
      rw [hq4] at hf4
      rw [or4_iff hf1 hf2 hf3 hf4]
      exact not_congr (Iff.symm
        (by constructor <;> intro hcc <;>
              simp only [List.cons.injEq, and_true] at hcc ⊢ <;> omega))
  · -- D
    obtain ⟨w1, x1, y1, z1, hr1, -, -, -, -, -, -, -⟩ := sumLine_spec_high a b c d
    obtain ⟨w2, x2, y2, z2, hr2, -, -, -, -, -, -, -⟩ := sumLine_spec_high e f g h
    obtain ⟨w3, x3, y3, z3, hr3, -, -, -, -, -, -, -⟩ := sumLine_spec_high i j k l
    obtain ⟨w4, x4, y4, z4, hr4, -, -, -, -, -, -, -⟩ := sumLine_spec_high m n o p
    obtain ⟨hm1, hf1⟩ := moveLine_pack_high w1 x1 y1 z1
    obtain ⟨hm2, hf2⟩ := moveLine_pack_high w2 x2 y2 z2
    obtain ⟨hm3, hf3⟩ := moveLine_pack_high w3 x3 y3 z3
    obtain ⟨hm4, hf4⟩ := moveLine_pack_high w4 x4 y4 z4
    have hmerge : merge_pass [[a,b,c,d],[e,f,g,h],[i,j,k,l],[m,n,o,p]] "D"
        = ([[w1,x1,y1,z1],[w2,x2,y2,z2],[w3,x3,y3,z3],[w4,x4,y4,z4]],
           (sumLine highParams [a,b,c,d]).2 + ((sumLine highParams [e,f,g,h]).2
             + ((sumLine highParams [i,j,k,l]).2 + ((sumLine highParams [m,n,o,p]).2 + 0)))) := by
      show horizontal_sum _ "d" = _
      rw [sumGrid_d, hr1, hr2, hr3, hr4]
    have hmove : move_pass [[w1,x1,y1,z1],[w2,x2,y2,z2],[w3,x3,y3,z3],[w4,x4,y4,z4]] "D"
        = ([packTo3 [w1,x1,y1,z1], packTo3 [w2,x2,y2,z2],
            packTo3 [w3,x3,y3,z3], packTo3 [w4,x4,y4,z4]],
           ((moveLine highParams [w1,x1,y1,z1]).2 || ((moveLine highParams [w2,x2,y2,z2]).2
             || ((moveLine highParams [w3,x3,y3,z3]).2
               || ((moveLine highParams [w4,x4,y4,z4]).2 || false))))) := by
      show horizontal_move _ "d" = _
      rw [moveGrid_d, hm1, hm2, hm3, hm4]
    refine ⟨_, _, _, _, hmerge, hmove, ?_, ?_⟩
    · rw [hpush, hmerge, hmove]
    · rw [or4_iff hf1 hf2 hf3 hf4]
      exact not_congr (Iff.symm
        (by constructor <;> intro hcc <;>
              simp only [List.cons.injEq, and_true] at hcc ⊢ <;>
              exact ⟨hcc.1, hcc.2.1, hcc.2.2.1, hcc.2.2.2⟩))


/-- C1 witness: the theorem instantiated on a concrete grid and
direction. -/
theorem push_changed_iff_compacted_witness :
    (("A" : String) ∈ (["W", "A", "S", "D"] : List String))
      ∧ (∃ t1 s t2 mv,
          merge_pass [[2,2,0,0],[0,0,0,0],[0,0,0,0],[0,0,0,0]] "A" = (t1, s)
            ∧ move_pass t1 "A" = (t2, mv)
            ∧ push_blocks [[2,2,0,0],[0,0,0,0],[0,0,0,0],[0,0,0,0]] "A"
                = some (t2, s, mv)
            ∧ (mv = true ↔ t2 ≠ t1)) :=
  ⟨by decide, push_changed_iff_compacted 2 2 0 0 0 0 0 0 0 0 0 0 0 0 0 0 "A"
    (by decide)⟩

/-- C1 counterexample: pushing `[[2,2,0,0],...]` left merges the two 2s
(score 4) and the grid changes, yet the returned `changed` flag is
`false`, because after the merge the row `[4,0,0,0]` needs no
compaction.  The flag is not "merge occurred or a tile slid". -/
theorem push_changed_merge_only_cex :
    push_blocks [[2,2,0,0],[0,0,0,0],[0,0,0,0],[0,0,0,0]] "A"
        = some ([[4,0,0,0],[0,0,0,0],[0,0,0,0],[0,0,0,0]], 4, false)
      ∧ ([[4,0,0,0],[0,0,0,0],[0,0,0,0],[0,0,0,0]] : List (List Nat))
        ≠ [[2,2,0,0],[0,0,0,0],[0,0,0,0],[0,0,0,0]] := by
  exact ⟨rfl, by decide⟩


/-- C2 (amended): for every 4x4 grid and every merge-pass direction the
merge pass conserves the total of all cell values (it does NOT add `v`
per merge), and the returned score is the total of the newly created
merged tiles, i.e. `2v` for each merge of two tiles of value `v` (the
sum over the cells whose value strictly increased). -/
theorem merge_conserves_sum_scores (a b c d e f g h i j k l m n o p : Nat) :
    (totalSum (horizontal_sum [[a,b,c,d],[e,f,g,h],[i,j,k,l],[m,n,o,p]] "a").1
        = totalSum [[a,b,c,d],[e,f,g,h],[i,j,k,l],[m,n,o,p]]
      ∧ (horizontal_sum [[a,b,c,d],[e,f,g,h],[i,j,k,l],[m,n,o,p]] "a").2
        = gainedCells [[a,b,c,d],[e,f,g,h],[i,j,k,l],[m,n,o,p]]
            (horizontal_sum [[a,b,c,d],[e,f,g,h],[i,j,k,l],[m,n,o,p]] "a").1)
    ∧ (totalSum (horizontal_sum [[a,b,c,d],[e,f,g,h],[i,j,k,l],[m,n,o,p]] "d").1
        = totalSum [[a,b,c,d],[e,f,g,h],[i,j,k,l],[m,n,o,p]]
      ∧ (horizontal_sum [[a,b,c,d],[e,f,g,h],[i,j,k,l],[m,n,o,p]] "d").2
        = gainedCells [[a,b,c,d],[e,f,g,h],[i,j,k,l],[m,n,o,p]]
            (horizontal_sum [[a,b,c,d],[e,f,g,h],[i,j,k,l],[m,n,o,p]] "d").1)
    ∧ (totalSum (vertical_sum [[a,b,c,d],[e,f,g,h],[i,j,k,l],[m,n,o,p]] "w").1
        = totalSum [[a,b,c,d],[e,f,g,h],[i,j,k,l],[m,n,o,p]]
      ∧ (vertical_sum [[a,b,c,d],[e,f,g,h],[i,j,k,l],[m,n,o,p]] "w").2
        = gainedCells [[a,b,c,d],[e,f,g,h],[i,j,k,l],[m,n,o,p]]
            (vertical_sum [[a,b,c,d],[e,f,g,h],[i,j,k,l],[m,n,o,p]] "w").1)
    ∧ (totalSum (vertical_sum [[a,b,c,d],[e,f,g,h],[i,j,k,l],[m,n,o,p]] "s").1
        = totalSum [[a,b,c,d],[e,f,g,h],[i,j,k,l],[m,n,o,p]]
      ∧ (vertical_sum [[a,b,c,d],[e,f,g,h],[i,j,k,l],[m,n,o,p]] "s").2
        = gainedCells [[a,b,c,d],[e,f,g,h],[i,j,k,l],[m,n,o,p]]
            (vertical_sum [[a,b,c,d],[e,f,g,h],[i,j,k,l],[m,n,o,p]] "s").1) := by
  refine ⟨?_, ?_, ?_, ?_⟩
  · rw [sumGrid_a]
    obtain ⟨w1, x1, y1, z1, hr1, hs1, hg1, -, -, -, -, -⟩ := sumLine_spec_low a b c d
    obtain ⟨w2, x2, y2, z2, hr2, hs2, hg2, -, -, -, -, -⟩ := sumLine_spec_low e f g h
    obtain ⟨w3, x3, y3, z3, hr3, hs3, hg3, -, -, -, -, -⟩ := sumLine_spec_low i j k l
    obtain ⟨w4, x4, y4, z4, hr4, hs4, hg4, -, -, -, -, -⟩ := sumLine_spec_low m n o p
    simp only [hr1, hr2, hr3, hr4]
    rw [totalSum4, totalSum4, gainedCells4]
    refine ⟨by omega, ?_⟩
    rw [hg1, hg2, hg3, hg4]
    omega
  · rw [sumGrid_d]
    obtain ⟨w1, x1, y1, z1, hr1, hs1, hg1, -, -, -, -, -⟩ := sumLine_spec_high a b c d
    obtain ⟨w2, x2, y2, z2, hr2, hs2, hg2, -, -, -, -, -⟩ := sumLine_spec_high e f g h
    obtain ⟨w3, x3, y3, z3, hr3, hs3, hg3, -, -, -, -, -⟩ := sumLine_spec_high i j k l
    obtain ⟨w4, x4, y4, z4, hr4, hs4, hg4, -, -, -, -, -⟩ := sumLine_spec_high m n o p
    simp only [hr1, hr2, hr3, hr4]
    rw [totalSum4, totalSum4, gainedCells4]
    refine ⟨by omega, ?_⟩
    rw [hg1, hg2, hg3, hg4]
    omega
  · rw [sumGrid_w]
    obtain ⟨w1, x1, y1, z1, hr1, hs1, hg1, -, -, -, -, -⟩ := sumLine_spec_low a e i m
    obtain ⟨w2, x2, y2, z2, hr2, hs2, hg2, -, -, -, -, -⟩ := sumLine_spec_low b f j n
    obtain ⟨w3, x3, y3, z3, hr3, hs3, hg3, -, -, -, -, -⟩ := sumLine_spec_low c g k o
    obtain ⟨w4, x4, y4, z4, hr4, hs4, hg4, -, -, -, -, -⟩ := sumLine_spec_low d h l p
    simp only [hr1, hr2, hr3, hr4, fromCols4]
    rw [totalSum4, totalSum4, gainedCells4]
    refine ⟨by omega, ?_⟩
    rw [hg1, hg2, hg3, hg4]
    omega
  · rw [sumGrid_s]
    obtain ⟨w1, x1, y1, z1, hr1, hs1, hg1, -, -, -, -, -⟩ := sumLine_spec_high a e i m
    obtain ⟨w2, x2, y2, z2, hr2, hs2, hg2, -, -, -, -, -⟩ := sumLine_spec_high b f j n
    obtain ⟨w3, x3, y3, z3, hr3, hs3, hg3, -, -, -, -, -⟩ := sumLine_spec_high c g k o
    obtain ⟨w4, x4, y4, z4, hr4, hs4, hg4, -, -, -, -, -⟩ := sumLine_spec_high d h l p
    simp only [hr1, hr2, hr3, hr4, fromCols4]
    rw [totalSum4, totalSum4, gainedCells4]
    refine ⟨by omega, ?_⟩
    rw [hg1, hg2, hg3, hg4]
    omega


/-- C2 counterexample: merging the two 2s of `[[2,2,0,0],...]` leaves
the total at 4 (not 4 + 2 as the claimed net gain `+v` would give), and
the score is 4 = 2v, not v = 2. -/
theorem merge_net_gain_cex :
    (horizontal_sum [[2,2,0,0],[0,0,0,0],[0,0,0,0],[0,0,0,0]] "a").1
        = [[4,0,0,0],[0,0,0,0],[0,0,0,0],[0,0,0,0]]
      ∧ totalSum [[4,0,0,0],[0,0,0,0],[0,0,0,0],[0,0,0,0]]
        = totalSum [[2,2,0,0],[0,0,0,0],[0,0,0,0],[0,0,0,0]]
      ∧ totalSum [[4,0,0,0],[0,0,0,0],[0,0,0,0],[0,0,0,0]]
        ≠ totalSum [[2,2,0,0],[0,0,0,0],[0,0,0,0],[0,0,0,0]] + 2
      ∧ (horizontal_sum [[2,2,0,0],[0,0,0,0],[0,0,0,0],[0,0,0,0]] "a").2 = 4 := by
  exact ⟨rfl, by decide, by decide, rfl⟩


/-- C3 (amended): a second push in the same direction is NOT a no-op in
general (see the counterexample: a merge can become possible only after
the slide).  What does hold: if the first push gained no score, the
second push returns the same grid with score 0 and `changed = false`. -/
theorem push_after_zero_score_noop (a b c d e f g h i j k l m n o p : Nat) (dir : String)
    (hdir : dir ∈ (["W", "A", "S", "D"] : List String))
    (t1 : List (List Nat)) (s : Nat) (mv : Bool)
    (hpush : push_blocks [[a,b,c,d],[e,f,g,h],[i,j,k,l],[m,n,o,p]] dir
      = some (t1, s, mv))
    (hs : s = 0) :
    push_blocks t1 dir = some (t1, 0, false) := by
  subst hs
  fin_cases hdir
  · -- W
    rw [push_blocks_W, sumGrid_w] at hpush
    simp only [Option.some.injEq, Prod.mk.injEq] at hpush
    obtain ⟨ht1, hS, -⟩ := hpush
    have hs1 : (sumLine lowParams [a,e,i,m]).2 = 0 := by omega
    have hs2 : (sumLine lowParams [b,f,j,n]).2 = 0 := by omega
    have hs3 : (sumLine lowParams [c,g,k,o]).2 = 0 := by omega
    have hs4 : (sumLine lowParams [d,h,l,p]).2 = 0 := by omega
    simp only [sumLine_zero_id_low a e i m hs1, sumLine_zero_id_low b f j n hs2,
      sumLine_zero_id_low c g k o hs3, sumLine_zero_id_low d h l p hs4] at ht1
    rw [fromCols4, moveGrid_w] at ht1
    simp only [(moveLine_pack_low a e i m).1, (moveLine_pack_low b f j n).1,
      (moveLine_pack_low c g k o).1, (moveLine_pack_low d h l p).1] at ht1
    obtain ⟨q1, q2, q3, q4, hq1⟩ :=
      list4 (by rw [packTo0_length]; rfl : (packTo0 [a,e,i,m]).length = 4)
    obtain ⟨q5, q6, q7, q8, hq2⟩ :=
      list4 (by rw [packTo0_length]; rfl : (packTo0 [b,f,j,n]).length = 4)
    obtain ⟨q9, q10, q11, q12, hq3⟩ :=
      list4 (by rw [packTo0_length]; rfl : (packTo0 [c,g,k,o]).length = 4)
    obtain ⟨q13, q14, q15, q16, hq4⟩ :=
      list4 (by rw [packTo0_length]; rfl : (packTo0 [d,h,l,p]).length = 4)
    rw [hq1, hq2, hq3, hq4, fromCols4] at ht1
    have hsq1 : sumLine lowParams [q1, q2, q3, q4] = ([q1, q2, q3, q4], 0) := by
      rw [← hq1]; exact sumLine_pack_id_low a e i m hs1
    have hsq2 : sumLine lowParams [q5, q6, q7, q8] = ([q5, q6, q7, q8], 0) := by
      rw [← hq2]; exact sumLine_pack_id_low b f j n hs2
    have hsq3 : sumLine lowParams [q9, q10, q11, q12] = ([q9, q10, q11, q12], 0) := by
      rw [← hq3]; exact sumLine_pack_id_low c g k o hs3
    have hsq4 : sumLine lowParams [q13, q14, q15, q16] = ([q13, q14, q15, q16], 0) := by
      rw [← hq4]; exact sumLine_pack_id_low d h l p hs4
    have hmq1 : moveLine lowParams [q1, q2, q3, q4] = ([q1, q2, q3, q4], false) := by
      rw [← hq1]; exact moveLine_pack_id_low a e i m
    have hmq2 : moveLine lowParams [q5, q6, q7, q8] = ([q5, q6, q7, q8], false) := by
      rw [← hq2]; exact moveLine_pack_id_low b f j n
    have hmq3 : moveLine lowParams [q9, q10, q11, q12] = ([q9, q10, q11, q12], false) := by
      rw [← hq3]; exact moveLine_pack_id_low c g k o
    have hmq4 : moveLine lowParams [q13, q14, q15, q16]
        = ([q13, q14, q15, q16], false) := by
      rw [← hq4]; exact moveLine_pack_id_low d h l p
    subst ht1
    rw [push_blocks_W]
    have hsum2 : vertical_sum
        [[q1,q5,q9,q13],[q2,q6,q10,q14],[q3,q7,q11,q15],[q4,q8,q12,q16]] "w"
        = ([[q1,q5,q9,q13],[q2,q6,q10,q14],[q3,q7,q11,q15],[q4,q8,q12,q16]], 0) := by
      rw [sumGrid_w]
      simp [hsq1, hsq2, hsq3, hsq4, fromCols4]
    have hmove2 : vertical_move
        [[q1,q5,q9,q13],[q2,q6,q10,q14],[q3,q7,q11,q15],[q4,q8,q12,q16]] "w"
        = ([[q1,q5,q9,q13],[q2,q6,q10,q14],[q3,q7,q11,q15],[q4,q8,q12,q16]],
           false) := by
      rw [moveGrid_w]
      simp [hmq1, hmq2, hmq3, hmq4, fromCols4]
    simp only [hsum2, hmove2]
  · -- A
    rw [push_blocks_A, sumGrid_a] at hpush
    simp only [Option.some.injEq, Prod.mk.injEq] at hpush
    obtain ⟨ht1, hS, -⟩ := hpush
    have hs1 : (sumLine lowParams [a,b,c,d]).2 = 0 := by omega
    have hs2 : (sumLine lowParams [e,f,g,h]).2 = 0 := by omega
    have hs3 : (sumLine lowParams [i,j,k,l]).2 = 0 := by omega
    have hs4 : (sumLine lowParams [m,n,o,p]).2 = 0 := by omega
    simp only [sumLine_zero_id_low a b c d hs1, sumLine_zero_id_low e f g h hs2,
      sumLine_zero_id_low i j k l hs3, sumLine_zero_id_low m n o p hs4] at ht1
    rw [moveGrid_a] at ht1
    simp only [(moveLine_pack_low a b c d).1, (moveLine_pack_low e f g h).1,
      (moveLine_pack_low i j k l).1, (moveLine_pack_low m n o p).1] at ht1
    subst ht1
    rw [push_blocks_A]
    have hsum2 : horizontal_sum
        [packTo0 [a,b,c,d], packTo0 [e,f,g,h],
         packTo0 [i,j,k,l], packTo0 [m,n,o,p]] "a"
        = ([packTo0 [a,b,c,d], packTo0 [e,f,g,h],
            packTo0 [i,j,k,l], packTo0 [m,n,o,p]], 0) := by
      rw [horizontal_sum_a]
      simp [sumLine_pack_id_low a b c d hs1, sumLine_pack_id_low e f g h hs2,
        sumLine_pack_id_low i j k l hs3, sumLine_pack_id_low m n o p hs4]
    have hmove2 : horizontal_move
        [packTo0 [a,b,c,d], packTo0 [e,f,g,h],
         packTo0 [i,j,k,l], packTo0 [m,n,o,p]] "a"
        = ([packTo0 [a,b,c,d], packTo0 [e,f,g,h],
            packTo0 [i,j,k,l], packTo0 [m,n,o,p]], false) := by
      rw [horizontal_move_a]
      simp [moveLine_pack_id_low a b c d, moveLine_pack_id_low e f g h,
        moveLine_pack_id_low i j k l, moveLine_pack_id_low m n o p]
    simp only [hsum2, hmove2]
  · -- S
    rw [push_blocks_S, sumGrid_s] at hpush
    simp only [Option.some.injEq, Prod.mk.injEq] at hpush
    obtain ⟨ht1, hS, -⟩ := hpush
    have hs1 : (sumLine highParams [a,e,i,m]).2 = 0 := by omega
    have hs2 : (sumLine highParams [b,f,j,n]).2 = 0 := by omega
    have hs3 : (sumLine highParams [c,g,k,o]).2 = 0 := by omega
    have hs4 : (sumLine highParams [d,h,l,p]).2 = 0 := by omega
    simp only [sumLine_zero_id_high a e i m hs1, sumLine_zero_id_high b f j n hs2,
      sumLine_zero_id_high c g k o hs3, sumLine_zero_id_high d h l p hs4] at ht1
    rw [fromCols4, moveGrid_s] at ht1
    simp only [(moveLine_pack_high a e i m).1, (moveLine_pack_high b f j n).1,
      (moveLine_pack_high c g k o).1, (moveLine_pack_high d h l p).1] at ht1
    obtain ⟨q1, q2, q3, q4, hq1⟩ :=
      list4 (by rw [packTo3_length]; rfl : (packTo3 [a,e,i,m]).length = 4)
    obtain ⟨q5, q6, q7, q8, hq2⟩ :=
      list4 (by rw [packTo3_length]; rfl : (packTo3 [b,f,j,n]).length = 4)
    obtain ⟨q9, q10, q11, q12, hq3⟩ :=
      list4 (by rw [packTo3_length]; rfl : (packTo3 [c,g,k,o]).length = 4)
    obtain ⟨q13, q14, q15, q16, hq4⟩ :=
      list4 (by rw [packTo3_length]; rfl : (packTo3 [d,h,l,p]).length = 4)
    rw [hq1, hq2, hq3, hq4, fromCols4] at ht1
    have hsq1 : sumLine highParams [q1, q2, q3, q4] = ([q1, q2, q3, q4], 0) := by
      rw [← hq1]; exact sumLine_pack_id_high a e i m hs1
    have hsq2 : sumLine highParams [q5, q6, q7, q8] = ([q5, q6, q7, q8], 0) := by
      rw [← hq2]; exact sumLine_pack_id_high b f j n hs2
    have hsq3 : sumLine highParams [q9, q10, q11, q12] = ([q9, q10, q11, q12], 0) := by
      rw [← hq3]; exact sumLine_pack_id_high c g k o hs3
    have hsq4 : sumLine highParams [q13, q14, q15, q16] = ([q13, q14, q15, q16], 0) := by
      rw [← hq4]; exact sumLine_pack_id_high d h l p hs4
    have hmq1 : moveLine highParams [q1, q2, q3, q4] = ([q1, q2, q3, q4], false) := by
      rw [← hq1]; exact moveLine_pack_id_high a e i m
    have hmq2 : moveLine highParams [q5, q6, q7, q8] = ([q5, q6, q7, q8], false) := by
      rw [← hq2]; exact moveLine_pack_id_high b f j n
    have hmq3 : moveLine highParams [q9, q10, q11, q12] = ([q9, q10, q11, q12], false) := by
      rw [← hq3]; exact moveLine_pack_id_high c g k o
    have hmq4 : moveLine highParams [q13, q14, q15, q16]
        = ([q13, q14, q15, q16], false) := by
      rw [← hq4]; exact moveLine_pack_id_high d h l p
    subst ht1
    rw [push_blocks_S]
    have hsum2 : vertical_sum
        [[q1,q5,q9,q13],[q2,q6,q10,q14],[q3,q7,q11,q15],[q4,q8,q12,q16]] "s"
        = ([[q1,q5,q9,q13],[q2,q6,q10,q14],[q3,q7,q11,q15],[q4,q8,q12,q16]], 0) := by
      rw [sumGrid_s]
      simp [hsq1, hsq2, hsq3, hsq4, fromCols4]
    have hmove2 : vertical_move
        [[q1,q5,q9,q13],[q2,q6,q10,q14],[q3,q7,q11,q15],[q4,q8,q12,q16]] "s"
        = ([[q1,q5,q9,q13],[q2,q6,q10,q14],[q3,q7,q11,q15],[q4,q8,q12,q16]],
           false) := by
      rw [moveGrid_s]
      simp [hmq1, hmq2, hmq3, hmq4, fromCols4]
    simp only [hsum2, hmove2]
  · -- D
    rw [push_blocks_D, sumGrid_d] at hpush
    simp only [Option.some.injEq, Prod.mk.injEq] at hpush
    obtain ⟨ht1, hS, -⟩ := hpush
    have hs1 : (sumLine highParams [a,b,c,d]).2 = 0 := by omega
    have hs2 : (sumLine highParams [e,f,g,h]).2 = 0 := by omega
    have hs3 : (sumLine highParams [i,j,k,l]).2 = 0 := by omega
    have hs4 : (sumLine highParams [m,n,o,p]).2 = 0 := by omega
    simp only [sumLine_zero_id_high a b c d hs1, sumLine_zero_id_high e f g h hs2,
      sumLine_zero_id_high i j k l hs3, sumLine_zero_id_high m n o p hs4] at ht1
    rw [moveGrid_d] at ht1
    simp only [(moveLine_pack_high a b c d).1, (moveLine_pack_high e f g h).1,
      (moveLine_pack_high i j k l).1, (moveLine_pack_high m n o p).1] at ht1
    subst ht1
    rw [push_blocks_D]
    have hsum2 : horizontal_sum
        [packTo3 [a,b,c,d], packTo3 [e,f,g,h],
         packTo3 [i,j,k,l], packTo3 [m,n,o,p]] "d"
        = ([packTo3 [a,b,c,d], packTo3 [e,f,g,h],
            packTo3 [i,j,k,l], packTo3 [m,n,o,p]], 0) := by
      rw [horizontal_sum_d]
      simp [sumLine_pack_id_high a b c d hs1, sumLine_pack_id_high e f g h hs2,
        sumLine_pack_id_high i j k l hs3, sumLine_pack_id_high m n o p hs4]
    have hmove2 : horizontal_move
        [packTo3 [a,b,c,d], packTo3 [e,f,g,h],
         packTo3 [i,j,k,l], packTo3 [m,n,o,p]] "d"
        = ([packTo3 [a,b,c,d], packTo3 [e,f,g,h],
            packTo3 [i,j,k,l], packTo3 [m,n,o,p]], false) := by
      rw [horizontal_move_d]
      simp [moveLine_pack_id_high a b c d, moveLine_pack_id_high e f g h,
        moveLine_pack_id_high i j k l, moveLine_pack_id_high m n o p]
    simp only [hsum2, hmove2]


/-- C3 witness: the theorem instantiated on a concrete grid whose first
push scores zero. -/
theorem push_after_zero_score_noop_witness :
    push_blocks [[0,2,0,0],[0,0,0,0],[0,0,0,0],[0,0,0,0]] "A"
        = some ([[2,0,0,0],[0,0,0,0],[0,0,0,0],[0,0,0,0]], 0, true)
      ∧ push_blocks [[2,0,0,0],[0,0,0,0],[0,0,0,0],[0,0,0,0]] "A"
        = some ([[2,0,0,0],[0,0,0,0],[0,0,0,0],[0,0,0,0]], 0, false) :=
  ⟨rfl, push_after_zero_score_noop 0 2 0 0 0 0 0 0 0 0 0 0 0 0 0 0 "A"
    (by decide) [[2,0,0,0],[0,0,0,0],[0,0,0,0],[0,0,0,0]] 0 true rfl rfl⟩

/-- C3 counterexample: pushing `[[4,2,2,4],...]` left twice changes the
grid and gains score on BOTH calls (4 then 8) — the merge of the two 4s
only becomes adjacent after the first compaction — refuting `changed =
false` and `scoreGained = 0` on the second call. -/
theorem push_twice_changed_cex :
    push_blocks [[4,2,2,4],[0,0,0,0],[0,0,0,0],[0,0,0,0]] "A"
        = some ([[4,4,4,0],[0,0,0,0],[0,0,0,0],[0,0,0,0]], 4, true)
      ∧ push_blocks [[4,4,4,0],[0,0,0,0],[0,0,0,0],[0,0,0,0]] "A"
        = some ([[8,4,0,0],[0,0,0,0],[0,0,0,0],[0,0,0,0]], 8, true) := ⟨rfl, rfl⟩


/-- C4 (amended): the spec example `[[4,2,2,0]]` pushed left gives first
row `[4,4,0,0]` and score 4 as claimed, but `changed = false`, not
`true`: the merge happens in place and the compaction pass then finds
nothing to slide, and only the compaction pass feeds the flag. -/
theorem example_push_row_4220 :
    push_blocks [[4,2,2,0],[0,0,0,0],[0,0,0,0],[0,0,0,0]] "A"
      = some ([[4,4,0,0],[0,0,0,0],[0,0,0,0],[0,0,0,0]], 4, false) := rfl

/-- C4 counterexample: the example's claimed outcome `changed = true`
differs from the computed `changed = false`. -/
theorem example_push_row_4220_cex :
    push_blocks [[4,2,2,0],[0,0,0,0],[0,0,0,0],[0,0,0,0]] "A"
        = some ([[4,4,0,0],[0,0,0,0],[0,0,0,0],[0,0,0,0]], 4, false)
      ∧ push_blocks [[4,2,2,0],[0,0,0,0],[0,0,0,0],[0,0,0,0]] "A"
        ≠ some ([[4,4,0,0],[0,0,0,0],[0,0,0,0],[0,0,0,0]], 4, true) := by
  exact ⟨rfl, by decide⟩


/-- C5 (amended): the scans are row-wise for the horizontal keys and
column-wise for the vertical keys as claimed, but the scan ORDER is the
opposite of the claim: the pivot indices ascend (0,1,2) for "a"/"w"
(Left/Up, the low-edge directions) and descend (3,2,1) for "d"/"s"
(Right/Down, the high-edge directions). -/
theorem scan_axis_and_order :
    (∀ r1 r2 r3 r4 : List Nat,
        (horizontal_sum [r1, r2, r3, r4] "a").1
            = [(sumLine lowParams r1).1, (sumLine lowParams r2).1,
               (sumLine lowParams r3).1, (sumLine lowParams r4).1]
          ∧ (horizontal_sum [r1, r2, r3, r4] "d").1
            = [(sumLine highParams r1).1, (sumLine highParams r2).1,
               (sumLine highParams r3).1, (sumLine highParams r4).1]
          ∧ (horizontal_move [r1, r2, r3, r4] "a").1
            = [(moveLine lowParams r1).1, (moveLine lowParams r2).1,
               (moveLine lowParams r3).1, (moveLine lowParams r4).1]
          ∧ (horizontal_move [r1, r2, r3, r4] "d").1
            = [(moveLine highParams r1).1, (moveLine highParams r2).1,
               (moveLine highParams r3).1, (moveLine highParams r4).1])
      ∧ (∀ a b c d e f g h i j k l m n o p : Nat,
        (vertical_sum [[a,b,c,d],[e,f,g,h],[i,j,k,l],[m,n,o,p]] "w").1
            = fromCols [(sumLine lowParams [a,e,i,m]).1, (sumLine lowParams [b,f,j,n]).1,
                (sumLine lowParams [c,g,k,o]).1, (sumLine lowParams [d,h,l,p]).1]
          ∧ (vertical_sum [[a,b,c,d],[e,f,g,h],[i,j,k,l],[m,n,o,p]] "s").1
            = fromCols [(sumLine highParams [a,e,i,m]).1, (sumLine highParams [b,f,j,n]).1,
                (sumLine highParams [c,g,k,o]).1, (sumLine highParams [d,h,l,p]).1]
          ∧ (vertical_move [[a,b,c,d],[e,f,g,h],[i,j,k,l],[m,n,o,p]] "w").1
            = fromCols [(moveLine lowParams [a,e,i,m]).1, (moveLine lowParams [b,f,j,n]).1,
                (moveLine lowParams [c,g,k,o]).1, (moveLine lowParams [d,h,l,p]).1]
          ∧ (vertical_move [[a,b,c,d],[e,f,g,h],[i,j,k,l],[m,n,o,p]] "s").1
            = fromCols [(moveLine highParams [a,e,i,m]).1, (moveLine highParams [b,f,j,n]).1,
                (moveLine highParams [c,g,k,o]).1, (moveLine highParams [d,h,l,p]).1])
      ∧ (idxScan lowParams = [0, 1, 2] ∧ List.Chain' (· < ·) (idxScan lowParams))
      ∧ (idxScan highParams = [3, 2, 1] ∧ List.Chain' (· > ·) (idxScan highParams)) :=
  ⟨fun r1 r2 r3 r4 => ⟨rfl, rfl, rfl, rfl⟩,
   fun a b c d e f g h i j k l m n o p => ⟨rfl, rfl, rfl, rfl⟩,
   ⟨by decide, by rw [(by decide : idxScan lowParams = [0, 1, 2])]
                  simp [List.chain'_cons]⟩,
   ⟨by decide, by rw [(by decide : idxScan highParams = [3, 2, 1])]
                  simp [List.chain'_cons]⟩⟩


/-- C5 counterexample: "d" (Right) and "s" (Down) select the descending
scan `[3,2,1]`, not an ascending one as the claim states. -/
theorem scan_order_cex :
    (if ("d" : String) = "a" then lowParams else highParams) = highParams
      ∧ (if ("s" : String) = "w" then lowParams else highParams) = highParams
      ∧ idxScan highParams = [3, 2, 1]
      ∧ ¬ List.Chain' (· < ·) (idxScan highParams) := by
  refine ⟨by decide, by decide, by decide, ?_⟩
  rw [(by decide : idxScan highParams = [3, 2, 1])]
  simp [List.chain'_cons]


/-- C6: the compaction pass sends every line (row for "a"/"d", column
for "w"/"s") to its packing: the non-zero values in original relative
order, packed against the push-direction edge (index 0 for "a"/"w",
index 3 for "d"/"s"), zeros filling the rest.  `packTo0`/`packTo3`
(filter of the non-zeros padded with zeros) preserve the multiset of
non-zero values by construction. -/
theorem compaction_packs_lines (a b c d e f g h i j k l m n o p : Nat) :
    (horizontal_move [[a,b,c,d],[e,f,g,h],[i,j,k,l],[m,n,o,p]] "a").1
        = [packTo0 [a,b,c,d], packTo0 [e,f,g,h], packTo0 [i,j,k,l], packTo0 [m,n,o,p]]
      ∧ (horizontal_move [[a,b,c,d],[e,f,g,h],[i,j,k,l],[m,n,o,p]] "d").1
        = [packTo3 [a,b,c,d], packTo3 [e,f,g,h], packTo3 [i,j,k,l], packTo3 [m,n,o,p]]
      ∧ (vertical_move [[a,b,c,d],[e,f,g,h],[i,j,k,l],[m,n,o,p]] "w").1
        = fromCols [packTo0 [a,e,i,m], packTo0 [b,f,j,n],
            packTo0 [c,g,k,o], packTo0 [d,h,l,p]]
      ∧ (vertical_move [[a,b,c,d],[e,f,g,h],[i,j,k,l],[m,n,o,p]] "s").1
        = fromCols [packTo3 [a,e,i,m], packTo3 [b,f,j,n],
            packTo3 [c,g,k,o], packTo3 [d,h,l,p]] := by
  refine ⟨?_, ?_, ?_, ?_⟩
  · rw [moveGrid_a, (moveLine_pack_low a b c d).1, (moveLine_pack_low e f g h).1,
      (moveLine_pack_low i j k l).1, (moveLine_pack_low m n o p).1]
  · rw [moveGrid_d, (moveLine_pack_high a b c d).1, (moveLine_pack_high e f g h).1,
      (moveLine_pack_high i j k l).1, (moveLine_pack_high m n o p).1]
  · rw [moveGrid_w, (moveLine_pack_low a e i m).1, (moveLine_pack_low b f j n).1,
      (moveLine_pack_low c g k o).1, (moveLine_pack_low d h l p).1]
  · rw [moveGrid_s, (moveLine_pack_high a e i m).1, (moveLine_pack_high b f j n).1,
      (moveLine_pack_high c g k o).1, (moveLine_pack_high d h l p).1]


/-- C7: the grid invariant (4x4, every cell 0 or a power of 2 that is
at least 2) holds for `new_table` and is preserved by `push_blocks` for
every valid direction key and by `insert_block` for the values {2,4} it
is called with. -/
theorem push_insert_preserve_invariant :
    validGrid new_table
      ∧ (∀ (a b c d e f g h i j k l m n o p : Nat) (dir : String),
          dir ∈ (["W", "A", "S", "D"] : List String) →
          validGrid [[a,b,c,d],[e,f,g,h],[i,j,k,l],[m,n,o,p]] →
          ∃ t s mv, push_blocks [[a,b,c,d],[e,f,g,h],[i,j,k,l],[m,n,o,p]] dir
              = some (t, s, mv) ∧ validGrid t)
      ∧ (∀ (t : List (List Nat)) (pick val : Nat),
          validGrid t → (val = 2 ∨ val = 4) →
          validGrid (insert_block t pick val)) := by
  refine ⟨?_, ?_, ?_⟩
  · show validGrid [[0,0,0,0],[0,0,0,0],[0,0,0,0],[0,0,0,0]]
    exact (validGrid4_iff 0 0 0 0 0 0 0 0 0 0 0 0 0 0 0 0).mpr
      ⟨⟨validCell_zero, validCell_zero, validCell_zero, validCell_zero⟩,
       ⟨validCell_zero, validCell_zero, validCell_zero, validCell_zero⟩,
       ⟨validCell_zero, validCell_zero, validCell_zero, validCell_zero⟩,
       ⟨validCell_zero, validCell_zero, validCell_zero, validCell_zero⟩⟩
  · intro a b c d e f g h i j k l m n o p dir hdir hvg
    obtain ⟨⟨va, vb, vc, vd⟩, ⟨ve, vf, vg, vh⟩, ⟨vi, vj, vk, vl⟩, ⟨vm, vn, vo, vp⟩⟩ :=
      (validGrid4_iff a b c d e f g h i j k l m n o p).mp hvg
    fin_cases hdir
    · -- W
      rw [push_blocks_W, sumGrid_w]
      obtain ⟨w1, x1, y1, z1, hr1, -, -, cw1, cx1, cy1, cz1, -⟩ := sumLine_spec_low a e i m
      obtain ⟨w2, x2, y2, z2, hr2, -, -, cw2, cx2, cy2, cz2, -⟩ := sumLine_spec_low b f j n
      obtain ⟨w3, x3, y3, z3, hr3, -, -, cw3, cx3, cy3, cz3, -⟩ := sumLine_spec_low c g k o
      obtain ⟨w4, x4, y4, z4, hr4, -, -, cw4, cx4, cy4, cz4, -⟩ := sumLine_spec_low d h l p
      simp only [hr1, hr2, hr3, hr4, fromCols4, moveGrid_w]
      obtain ⟨hm1, -⟩ := moveLine_pack_low w1 x1 y1 z1
      obtain ⟨hm2, -⟩ := moveLine_pack_low w2 x2 y2 z2
      obtain ⟨hm3, -⟩ := moveLine_pack_low w3 x3 y3 z3
      obtain ⟨hm4, -⟩ := moveLine_pack_low w4 x4 y4 z4
      obtain ⟨q1, q2, q3, q4, hq1⟩ :=
        list4 (by rw [packTo0_length]; rfl : (packTo0 [w1,x1,y1,z1]).length = 4)
      obtain ⟨q5, q6, q7, q8, hq2⟩ :=
        list4 (by rw [packTo0_length]; rfl : (packTo0 [w2,x2,y2,z2]).length = 4)
      obtain ⟨q9, q10, q11, q12, hq3⟩ :=
        list4 (by rw [packTo0_length]; rfl : (packTo0 [w3,x3,y3,z3]).length = 4)
      obtain ⟨q13, q14, q15, q16, hq4⟩ :=
        list4 (by rw [packTo0_length]; rfl : (packTo0 [w4,x4,y4,z4]).length = 4)
      simp only [hm1, hm2, hm3, hm4, hq1, hq2, hq3, hq4, fromCols4]
      refine ⟨_, _, _, rfl, ?_⟩
      have hv1 := validCell_pack0 (validCell_tri cw1 va) (validCell_tri cx1 ve)
        (validCell_tri cy1 vi) (validCell_tri cz1 vm)
      have hv2 := validCell_pack0 (validCell_tri cw2 vb) (validCell_tri cx2 vf)
        (validCell_tri cy2 vj) (validCell_tri cz2 vn)
      have hv3 := validCell_pack0 (validCell_tri cw3 vc) (validCell_tri cx3 vg)
        (validCell_tri cy3 vk) (validCell_tri cz3 vo)
      have hv4 := validCell_pack0 (validCell_tri cw4 vd) (validCell_tri cx4 vh)
        (validCell_tri cy4 vl) (validCell_tri cz4 vp)
      rw [hq1] at hv1
      rw [hq2] at hv2
      rw [hq3] at hv3
      rw [hq4] at hv4
      exact (validGrid4_iff q1 q5 q9 q13 q2 q6 q10 q14 q3 q7 q11 q15 q4 q8 q12 q16).mpr
        ⟨⟨hv1 q1 (by simp), hv2 q5 (by simp), hv3 q9 (by simp), hv4 q13 (by simp)⟩,
         ⟨hv1 q2 (by simp), hv2 q6 (by simp), hv3 q10 (by simp), hv4 q14 (by simp)⟩,
         ⟨hv1 q3 (by simp), hv2 q7 (by simp), hv3 q11 (by simp), hv4 q15 (by simp)⟩,
         ⟨hv1 q4 (by simp), hv2 q8 (by simp), hv3 q12 (by simp), hv4 q16 (by simp)⟩⟩
    · -- A
      rw [push_blocks_A, sumGrid_a]
      obtain ⟨w1, x1, y1, z1, hr1, -, -, cw1, cx1, cy1, cz1, -⟩ := sumLine_spec_low a b c d
      obtain ⟨w2, x2, y2, z2, hr2, -, -, cw2, cx2, cy2, cz2, -⟩ := sumLine_spec_low e f g h
      obtain ⟨w3, x3, y3, z3, hr3, -, -, cw3, cx3, cy3, cz3, -⟩ := sumLine_spec_low i j k l
      obtain ⟨w4, x4, y4, z4, hr4, -, -, cw4, cx4, cy4, cz4, -⟩ := sumLine_spec_low m n o p
      simp only [hr1, hr2, hr3, hr4, moveGrid_a]
      obtain ⟨hm1, -⟩ := moveLine_pack_low w1 x1 y1 z1
      obtain ⟨hm2, -⟩ := moveLine_pack_low w2 x2 y2 z2
      obtain ⟨hm3, -⟩ := moveLine_pack_low w3 x3 y3 z3
      obtain ⟨hm4, -⟩ := moveLine_pack_low w4 x4 y4 z4
      simp only [hm1, hm2, hm3, hm4]
      refine ⟨_, _, _, rfl, rfl, ?_, ?_⟩
      · intro row hrow
        simp only [List.mem_cons, List.not_mem_nil, or_false] at hrow
        rcases hrow with rfl | rfl | rfl | rfl <;> rw [packTo0_length] <;> rfl
      · intro row hrow
        simp only [List.mem_cons, List.not_mem_nil, or_false] at hrow
        rcases hrow with rfl | rfl | rfl | rfl
        · exact validCell_pack0 (validCell_tri cw1 va) (validCell_tri cx1 vb)
            (validCell_tri cy1 vc) (validCell_tri cz1 vd)
        · exact validCell_pack0 (validCell_tri cw2 ve) (validCell_tri cx2 vf)
            (validCell_tri cy2 vg) (validCell_tri cz2 vh)
        · exact validCell_pack0 (validCell_tri cw3 vi) (validCell_tri cx3 vj)
            (validCell_tri cy3 vk) (validCell_tri cz3 vl)
        · exact validCell_pack0 (validCell_tri cw4 vm) (validCell_tri cx4 vn)
            (validCell_tri cy4 vo) (validCell_tri cz4 vp)
    · -- S
      rw [push_blocks_S, sumGrid_s]
      obtain ⟨w1, x1, y1, z1, hr1, -, -, cw1, cx1, cy1, cz1, -⟩ := sumLine_spec_high a e i m
      obtain ⟨w2, x2, y2, z2, hr2, -, -, cw2, cx2, cy2, cz2, -⟩ := sumLine_spec_high b f j n
      obtain ⟨w3, x3, y3, z3, hr3, -, -, cw3, cx3, cy3, cz3, -⟩ := sumLine_spec_high c g k o
      obtain ⟨w4, x4, y4, z4, hr4, -, -, cw4, cx4, cy4, cz4, -⟩ := sumLine_spec_high d h l p
      simp only [hr1, hr2, hr3, hr4, fromCols4, moveGrid_s]
      obtain ⟨hm1, -⟩ := moveLine_pack_high w1 x1 y1 z1
      obtain ⟨hm2, -⟩ := moveLine_pack_high w2 x2 y2 z2
      obtain ⟨hm3, -⟩ := moveLine_pack_high w3 x3 y3 z3
      obtain ⟨hm4, -⟩ := moveLine_pack_high w4 x4 y4 z4
      obtain ⟨q1, q2, q3, q4, hq1⟩ :=
        list4 (by rw [packTo3_length]; rfl : (packTo3 [w1,x1,y1,z1]).length = 4)
      obtain ⟨q5, q6, q7, q8, hq2⟩ :=
        list4 (by rw [packTo3_length]; rfl : (packTo3 [w2,x2,y2,z2]).length = 4)
      obtain ⟨q9, q10, q11, q12, hq3⟩ :=
        list4 (by rw [packTo3_length]; rfl : (packTo3 [w3,x3,y3,z3]).length = 4)
      obtain ⟨q13, q14, q15, q16, hq4⟩ :=
        list4 (by rw [packTo3_length]; rfl : (packTo3 [w4,x4,y4,z4]).length = 4)
      simp only [hm1, hm2, hm3, hm4, hq1, hq2, hq3, hq4, fromCols4]
      refine ⟨_, _, _, rfl, ?_⟩
      have hv1 := validCell_pack3 (validCell_tri cw1 va) (validCell_tri cx1 ve)
        (validCell_tri cy1 vi) (validCell_tri cz1 vm)
      have hv2 := validCell_pack3 (validCell_tri cw2 vb) (validCell_tri cx2 vf)
        (validCell_tri cy2 vj) (validCell_tri cz2 vn)
      have hv3 := validCell_pack3 (validCell_tri cw3 vc) (validCell_tri cx3 vg)
        (validCell_tri cy3 vk) (validCell_tri cz3 vo)
      have hv4 := validCell_pack3 (validCell_tri cw4 vd) (validCell_tri cx4 vh)
        (validCell_tri cy4 vl) (validCell_tri cz4 vp)
      rw [hq1] at hv1
      rw [hq2] at hv2
      rw [hq3] at hv3
      rw [hq4] at hv4
      exact (validGrid4_iff q1 q5 q9 q13 q2 q6 q10 q14 q3 q7 q11 q15 q4 q8 q12 q16).mpr
        ⟨⟨hv1 q1 (by simp), hv2 q5 (by simp), hv3 q9 (by simp), hv4 q13 (by simp)⟩,
         ⟨hv1 q2 (by simp), hv2 q6 (by simp), hv3 q10 (by simp), hv4 q14 (by simp)⟩,
         ⟨hv1 q3 (by simp), hv2 q7 (by simp), hv3 q11 (by simp), hv4 q15 (by simp)⟩,
         ⟨hv1 q4 (by simp), hv2 q8 (by simp), hv3 q12 (by simp), hv4 q16 (by simp)⟩⟩
    · -- D
      rw [push_blocks_D, sumGrid_d]
      obtain ⟨w1, x1, y1, z1, hr1, -, -, cw1, cx1, cy1, cz1, -⟩ := sumLine_spec_high a b c d
      obtain ⟨w2, x2, y2, z2, hr2, -, -, cw2, cx2, cy2, cz2, -⟩ := sumLine_spec_high e f g h
      obtain ⟨w3, x3, y3, z3, hr3, -, -, cw3, cx3, cy3, cz3, -⟩ := sumLine_spec_high i j k l
      obtain ⟨w4, x4, y4, z4, hr4, -, -, cw4, cx4, cy4, cz4, -⟩ := sumLine_spec_high m n o p
      simp only [hr1, hr2, hr3, hr4, moveGrid_d]
      obtain ⟨hm1, -⟩ := moveLine_pack_high w1 x1 y1 z1
      obtain ⟨hm2, -⟩ := moveLine_pack_high w2 x2 y2 z2
      obtain ⟨hm3, -⟩ := moveLine_pack_high w3 x3 y3 z3
      obtain ⟨hm4, -⟩ := moveLine_pack_high w4 x4 y4 z4
      simp only [hm1, hm2, hm3, hm4]
      refine ⟨_, _, _, rfl, rfl, ?_, ?_⟩
      · intro row hrow
        simp only [List.mem_cons, List.not_mem_nil, or_false] at hrow
        rcases hrow with rfl | rfl | rfl | rfl <;> rw [packTo3_length] <;> rfl
      · intro row hrow
        simp only [List.mem_cons, List.not_mem_nil, or_false] at hrow
        rcases hrow with rfl | rfl | rfl | rfl
        · exact validCell_pack3 (validCell_tri cw1 va) (validCell_tri cx1 vb)
            (validCell_tri cy1 vc) (validCell_tri cz1 vd)
        · exact validCell_pack3 (validCell_tri cw2 ve) (validCell_tri cx2 vf)
            (validCell_tri cy2 vg) (validCell_tri cz2 vh)
        · exact validCell_pack3 (validCell_tri cw3 vi) (validCell_tri cx3 vj)
            (validCell_tri cy3 vk) (validCell_tri cz3 vl)
        · exact validCell_pack3 (validCell_tri cw4 vm) (validCell_tri cx4 vn)
            (validCell_tri cy4 vo) (validCell_tri cz4 vp)
  · intro t pick val hvg hval
    exact validGrid_insert hvg hval


/-- C7 witness: the push-preservation part instantiated on a concrete
valid grid. -/
theorem push_insert_preserve_invariant_witness :
    validGrid [[2,0,0,0],[0,0,0,0],[0,0,0,0],[0,0,4,0]]
      ∧ ∃ t s mv,
          push_blocks [[2,0,0,0],[0,0,0,0],[0,0,0,0],[0,0,4,0]] "A"
              = some (t, s, mv)
            ∧ validGrid t := by
  have hv : validGrid [[2,0,0,0],[0,0,0,0],[0,0,0,0],[0,0,4,0]] :=
    (validGrid4_iff 2 0 0 0 0 0 0 0 0 0 0 0 0 0 4 0).mpr
      ⟨⟨validCell_two, validCell_zero, validCell_zero, validCell_zero⟩,
       ⟨validCell_zero, validCell_zero, validCell_zero, validCell_zero⟩,
       ⟨validCell_zero, validCell_zero, validCell_zero, validCell_zero⟩,
       ⟨validCell_zero, validCell_zero, validCell_four, validCell_zero⟩⟩
  exact ⟨hv, push_insert_preserve_invariant.2.1 2 0 0 0 0 0 0 0 0 0 0 0 0 0 4 0
    "A" (by decide) hv⟩


/-- C8: `insert_block` on a grid with no empty cell returns the grid
unchanged, and on a 4x4 grid with exactly one empty cell it writes its
value (2 or 4 as supplied by the caller) into exactly that cell and
leaves every other cell unchanged, for any random pick. -/
theorem insert_block_contract :
    (∀ (t : List (List Nat)) (pick val : Nat),
        get_empty_indexes t = [] → insert_block t pick val = t)
      ∧ (∀ (t : List (List Nat)) (pick val r c : Nat),
        t.length = 4 → (∀ row ∈ t, row.length = 4) →
        get_empty_indexes t = [(r, c)] → (val = 2 ∨ val = 4) →
        (val = 2 ∨ val = 4)
          ∧ getCell (insert_block t pick val) r c = val
          ∧ ∀ r2 c2 : Nat, ¬(r2 = r ∧ c2 = c) →
              getCell (insert_block t pick val) r2 c2 = getCell t r2 c2) := by
  constructor
  · intro t pick val h
    simp [insert_block, h]
  · intro t pick val r c hlen hrows hidx hval
    have hmem : (r, c) ∈ get_empty_indexes t := by
      rw [hidx]
      exact List.mem_cons_self _ _
    obtain ⟨hr, hc, h0⟩ := mem_get_empty.mp hmem
    have hins : insert_block t pick val = setCell t r c val := by
      rw [insert_block]
      simp only [hidx]
      rw [if_neg (by simp)]
      simp [Nat.mod_one]
    have hrowlen : (t.getD r []).length = 4 :=
      hrows _ (getD_mem4 [] t r (by omega))
    refine ⟨hval, ?_, ?_⟩
    · rw [hins, setCell, getCell, getD_set_self _ _ _ _ (by omega),
        getD_set_self _ _ _ _ (by omega)]
    · intro r2 c2 hne
      rw [hins, setCell, getCell, getCell]
      by_cases hrr : r = r2
      · subst hrr
        have hcc : c ≠ c2 := fun hcc => hne ⟨rfl, hcc.symm⟩
        rw [getD_set_self _ _ _ _ (by omega), getD_set_other _ _ _ _ _ hcc]
      · rw [getD_set_other _ _ _ _ _ hrr]


/-- C8 witness: the no-op part on a full grid and the fill part on a
grid whose only empty cell is (3,3). -/
theorem insert_block_contract_witness :
    (get_empty_indexes [[2,4,2,4],[4,2,4,2],[2,4,2,4],[4,2,4,2]] = []
      ∧ insert_block [[2,4,2,4],[4,2,4,2],[2,4,2,4],[4,2,4,2]] 5 2
        = [[2,4,2,4],[4,2,4,2],[2,4,2,4],[4,2,4,2]])
    ∧ (get_empty_indexes [[2,4,2,4],[4,2,4,2],[2,4,2,4],[4,2,4,0]] = [(3, 3)]
      ∧ getCell (insert_block [[2,4,2,4],[4,2,4,2],[2,4,2,4],[4,2,4,0]] 7 2) 3 3
        = 2) := by
  refine ⟨⟨by decide, insert_block_contract.1 _ 5 2 (by decide)⟩, by decide, ?_⟩
  exact (insert_block_contract.2 [[2,4,2,4],[4,2,4,2],[2,4,2,4],[4,2,4,0]] 7 2 3 3
    (by decide) (by decide) (by decide) (Or.inl rfl)).2.1


/-- C9: `can_move` is true iff some cell is 0, or two horizontally
adjacent cells of a row are equal, or two vertically adjacent cells of a
column are equal; and it is false on the alternating grid
`[[2,4,2,4],[4,2,4,2],[2,4,2,4],[4,2,4,2]]`. -/
theorem can_move_iff :
    (∀ t : List (List Nat),
      can_move t = true
        ↔ ((∃ r < 4, ∃ c < 4, getCell t r c = 0)
            ∨ (∃ r < 4, ∃ c < 3, getCell t r c = getCell t r (c + 1))
            ∨ (∃ c < 4, ∃ r < 3, getCell t r c = getCell t (r + 1) c)))
      ∧ can_move [[2,4,2,4],[4,2,4,2],[2,4,2,4],[4,2,4,2]] = false := by
  constructor
  · intro t
    have hh : can_move_horizontally t = true
        ↔ (∃ r < 4, ∃ c < 3, getCell t r c = getCell t r (c + 1)) := by
      simp [can_move_horizontally, List.any_eq_true, List.mem_range]
    have hv : can_move_vertically t = true
        ↔ (∃ c < 4, ∃ r < 3, getCell t r c = getCell t (r + 1) c) := by
      simp [can_move_vertically, List.any_eq_true, List.mem_range]
    by_cases hne : get_empty_indexes t = []
    · have hempty : ¬ (∃ r < 4, ∃ c < 4, getCell t r c = 0) := by
        rintro ⟨r, hr, c, hc, h0⟩
        have : (r, c) ∈ get_empty_indexes t := mem_get_empty.mpr ⟨hr, hc, h0⟩
        rw [hne] at this
        cases this
      rw [can_move, if_neg (by simpa using hne)]
      rw [Bool.or_eq_true, hh, hv]
      constructor
      · exact fun hcase => Or.inr hcase
      · rintro (hcase | hcase)
        · exact absurd hcase hempty
        · exact hcase
    · obtain ⟨⟨r, c⟩, hmem⟩ := List.exists_mem_of_ne_nil _ hne
      obtain ⟨hr, hc, h0⟩ := mem_get_empty.mp hmem
      rw [can_move, if_pos (by simpa using hne)]
      simp only [true_iff]
      exact Or.inl ⟨r, hr, c, hc, h0⟩
  · decide


/-- C10: a push in any valid direction conserves the total of all 16
cell values: the merge pass replaces two tiles `v` by `2v` and 0 and the
compaction pass only permutes cells. -/
theorem push_preserves_total (a b c d e f g h i j k l m n o p : Nat) (dir : String)
    (hdir : dir ∈ (["W", "A", "S", "D"] : List String)) :
    ∃ t s mv, push_blocks [[a,b,c,d],[e,f,g,h],[i,j,k,l],[m,n,o,p]] dir = some (t, s, mv)
      ∧ totalSum t = totalSum [[a,b,c,d],[e,f,g,h],[i,j,k,l],[m,n,o,p]] := by
  fin_cases hdir
  · -- W
    rw [push_blocks_W, sumGrid_w]
    obtain ⟨w1, x1, y1, z1, hr1, hs1, -, -, -, -, -, -⟩ := sumLine_spec_low a e i m
    obtain ⟨w2, x2, y2, z2, hr2, hs2, -, -, -, -, -, -⟩ := sumLine_spec_low b f j n
    obtain ⟨w3, x3, y3, z3, hr3, hs3, -, -, -, -, -, -⟩ := sumLine_spec_low c g k o
    obtain ⟨w4, x4, y4, z4, hr4, hs4, -, -, -, -, -, -⟩ := sumLine_spec_low d h l p
    simp only [hr1, hr2, hr3, hr4, fromCols4, moveGrid_w]
    obtain ⟨hm1, -⟩ := moveLine_pack_low w1 x1 y1 z1
    obtain ⟨hm2, -⟩ := moveLine_pack_low w2 x2 y2 z2
    obtain ⟨hm3, -⟩ := moveLine_pack_low w3 x3 y3 z3
    obtain ⟨hm4, -⟩ := moveLine_pack_low w4 x4 y4 z4
    obtain ⟨q1, q2, q3, q4, hq1⟩ :=
      list4 (by rw [packTo0_length]; rfl : (packTo0 [w1,x1,y1,z1]).length = 4)
    obtain ⟨q5, q6, q7, q8, hq2⟩ :=
      list4 (by rw [packTo0_length]; rfl : (packTo0 [w2,x2,y2,z2]).length = 4)
    obtain ⟨q9, q10, q11, q12, hq3⟩ :=
      list4 (by rw [packTo0_length]; rfl : (packTo0 [w3,x3,y3,z3]).length = 4)
    obtain ⟨q13, q14, q15, q16, hq4⟩ :=
      list4 (by rw [packTo0_length]; rfl : (packTo0 [w4,x4,y4,z4]).length = 4)
    have hps1 := packTo0_sum [w1,x1,y1,z1]
    have hps2 := packTo0_sum [w2,x2,y2,z2]
    have hps3 := packTo0_sum [w3,x3,y3,z3]
    have hps4 := packTo0_sum [w4,x4,y4,z4]
    rw [hq1] at hps1
    rw [hq2] at hps2
    rw [hq3] at hps3
    rw [hq4] at hps4
    simp only [List.sum_cons, List.sum_nil] at hps1 hps2 hps3 hps4
    simp only [hm1, hm2, hm3, hm4, hq1, hq2, hq3, hq4, fromCols4]
    refine ⟨_, _, _, rfl, ?_⟩
    rw [totalSum4, totalSum4]
    omega
  · -- A
    rw [push_blocks_A, sumGrid_a]
    obtain ⟨w1, x1, y1, z1, hr1, hs1, -, -, -, -, -, -⟩ := sumLine_spec_low a b c d
    obtain ⟨w2, x2, y2, z2, hr2, hs2, -, -, -, -, -, -⟩ := sumLine_spec_low e f g h
    obtain ⟨w3, x3, y3, z3, hr3, hs3, -, -, -, -, -, -⟩ := sumLine_spec_low i j k l
    obtain ⟨w4, x4, y4, z4, hr4, hs4, -, -, -, -, -, -⟩ := sumLine_spec_low m n o p
    simp only [hr1, hr2, hr3, hr4, moveGrid_a]
    obtain ⟨hm1, -⟩ := moveLine_pack_low w1 x1 y1 z1
    obtain ⟨hm2, -⟩ := moveLine_pack_low w2 x2 y2 z2
    obtain ⟨hm3, -⟩ := moveLine_pack_low w3 x3 y3 z3
    obtain ⟨hm4, -⟩ := moveLine_pack_low w4 x4 y4 z4
    simp only [hm1, hm2, hm3, hm4]
    refine ⟨_, _, _, rfl, ?_⟩
    rw [totalSum4]
    unfold totalSum
    simp only [List.map_cons, List.map_nil, List.sum_cons, List.sum_nil, packTo0_sum]
    omega
  · -- S
    rw [push_blocks_S, sumGrid_s]
    obtain ⟨w1, x1, y1, z1, hr1, hs1, -, -, -, -, -, -⟩ := sumLine_spec_high a e i m
    obtain ⟨w2, x2, y2, z2, hr2, hs2, -, -, -, -, -, -⟩ := sumLine_spec_high b f j n
    obtain ⟨w3, x3, y3, z3, hr3, hs3, -, -, -, -, -, -⟩ := sumLine_spec_high c g k o
    obtain ⟨w4, x4, y4, z4, hr4, hs4, -, -, -, -, -, -⟩ := sumLine_spec_high d h l p
    simp only [hr1, hr2, hr3, hr4, fromCols4, moveGrid_s]
    obtain ⟨hm1, -⟩ := moveLine_pack_high w1 x1 y1 z1
    obtain ⟨hm2, -⟩ := moveLine_pack_high w2 x2 y2 z2
    obtain ⟨hm3, -⟩ := moveLine_pack_high w3 x3 y3 z3
    obtain ⟨hm4, -⟩ := moveLine_pack_high w4 x4 y4 z4
    obtain ⟨q1, q2, q3, q4, hq1⟩ :=
      list4 (by rw [packTo3_length]; rfl : (packTo3 [w1,x1,y1,z1]).length = 4)
    obtain ⟨q5, q6, q7, q8, hq2⟩ :=
      list4 (by rw [packTo3_length]; rfl : (packTo3 [w2,x2,y2,z2]).length = 4)
    obtain ⟨q9, q10, q11, q12, hq3⟩ :=
      list4 (by rw [packTo3_length]; rfl : (packTo3 [w3,x3,y3,z3]).length = 4)
    obtain ⟨q13, q14, q15, q16, hq4⟩ :=
      list4 (by rw [packTo3_length]; rfl : (packTo3 [w4,x4,y4,z4]).length = 4)
    have hps1 := packTo3_sum [w1,x1,y1,z1]
    have hps2 := packTo3_sum [w2,x2,y2,z2]
    have hps3 := packTo3_sum [w3,x3,y3,z3]
    have hps4 := packTo3_sum [w4,x4,y4,z4]
    rw [hq1] at hps1
    rw [hq2] at hps2
    rw [hq3] at hps3
    rw [hq4] at hps4
    simp only [List.sum_cons, List.sum_nil] at hps1 hps2 hps3 hps4
    simp only [hm1, hm2, hm3, hm4, hq1, hq2, hq3, hq4, fromCols4]
    refine ⟨_, _, _, rfl, ?_⟩
    rw [totalSum4, totalSum4]
    omega
  · -- D
    rw [push_blocks_D, sumGrid_d]
    obtain ⟨w1, x1, y1, z1, hr1, hs1, -, -, -, -, -, -⟩ := sumLine_spec_high a b c d
    obtain ⟨w2, x2, y2, z2, hr2, hs2, -, -, -, -, -, -⟩ := sumLine_spec_high e f g h
    obtain ⟨w3, x3, y3, z3, hr3, hs3, -, -, -, -, -, -⟩ := sumLine_spec_high i j k l
    obtain ⟨w4, x4, y4, z4, hr4, hs4, -, -, -, -, -, -⟩ := sumLine_spec_high m n o p
    simp only [hr1, hr2, hr3, hr4, moveGrid_d]
    obtain ⟨hm1, -⟩ := moveLine_pack_high w1 x1 y1 z1
    obtain ⟨hm2, -⟩ := moveLine_pack_high w2 x2 y2 z2
    obtain ⟨hm3, -⟩ := moveLine_pack_high w3 x3 y3 z3
    obtain ⟨hm4, -⟩ := moveLine_pack_high w4 x4 y4 z4
    simp only [hm1, hm2, hm3, hm4]
    refine ⟨_, _, _, rfl, ?_⟩
    rw [totalSum4]
    unfold totalSum
    simp only [List.map_cons, List.map_nil, List.sum_cons, List.sum_nil, packTo3_sum]
    omega


/-- C10 witness: the theorem instantiated on a concrete grid and
direction. -/
theorem push_preserves_total_witness :
    (("A" : String) ∈ (["W", "A", "S", "D"] : List String))
      ∧ (∃ t s mv,
          push_blocks [[4,2,2,0],[0,0,0,0],[0,0,0,0],[0,0,0,0]] "A" = some (t, s, mv)
            ∧ totalSum t = totalSum [[4,2,2,0],[0,0,0,0],[0,0,0,0],[0,0,0,0]]) :=
  ⟨by decide, push_preserves_total 4 2 2 0 0 0 0 0 0 0 0 0 0 0 0 0 "A" (by decide)⟩

end Game2048
